import Mathlib

/-!
Verification of the ED pain-audit data pipeline (`data_utils.py`).

A pandas `DataFrame` is modelled as a `Table`: a list of column names plus a
list of rows, each row an association list from column names to `Cell`s.
A `Cell` is a string, a rational number (pandas floats, intervals in minutes),
a timestamp (`dt`, minutes since the Unix epoch — the source format has minute
resolution, so minutes are exact), or `null` (NaN/NaT/None).

Python exceptions are modelled by `Option`: a function that can raise
(e.g. a `KeyError` from `df['Postcode']` when the column is absent, or a
`TypeError` from comparing a non-numeric decile) returns `none` there, and
`process_monthly_data`'s blanket `except` clause maps failure to `none`
overall.  `print` warnings are modelled as returned data (a list of missing
column names).  File I/O (`pd.read_excel` / `pd.read_csv`) is outside the
model: functions take the already-parsed table.
-/

namespace PainAudit

/-- One cell of a data table: string, numeric (ℚ, standing for pandas floats —
all numbers arising here are exact decimals), timestamp in whole minutes since
the epoch, or null (NaN/NaT). -/
inductive Cell where
  | str (s : String)
  | num (q : ℚ)
  | dt (t : Int)
  | null
deriving DecidableEq

/-- A table row: association list from column name to cell.  Lookup takes the
first binding, so `set` can simply prepend. -/
structure Row where
  cells : List (String × Cell)
deriving DecidableEq

/-- Read a cell; a name with no binding reads as null (rows are always kept in
sync with the table's column list by the pipeline, so this default is never
observed for declared columns). -/
def Row.get (r : Row) (c : String) : Cell :=
  (r.cells.lookup c).getD Cell.null

/-- Write (or overwrite) a cell. -/
def Row.set (r : Row) (c : String) (v : Cell) : Row :=
  ⟨(c, v) :: r.cells⟩

/-- Remove the bindings for the given column names. -/
def Row.dropCols (r : Row) (cs : List String) : Row :=
  ⟨r.cells.filter (fun kv => !(cs.contains kv.1))⟩

/-- A data table: column names (in order) and rows. -/
structure Table where
  cols : List String
  rows : List Row
deriving DecidableEq

/-- `df[c] = f(row)`: add a column (appended at the end if new) whose cell in
each row is computed from that row. -/
def Table.addCol (t : Table) (c : String) (f : Row → Cell) : Table :=
  { cols := if c ∈ t.cols then t.cols else t.cols ++ [c],
    rows := t.rows.map (fun r => r.set c (f r)) }

/-- `df.drop(columns=cs, errors='ignore')`. -/
def Table.dropCols (t : Table) (cs : List String) : Table :=
  { cols := t.cols.filter (fun c => !(cs.contains c)),
    rows := t.rows.map (fun r => r.dropCols cs) }

/-- Transform every cell of one column in place. -/
def Table.mapCol (t : Table) (c : String) (f : Cell → Cell) : Table :=
  { cols := t.cols, rows := t.rows.map (fun r => r.set c (f (r.get c))) }

/-- Rename all columns through `f` (used for header whitespace stripping). -/
def Table.renameCols (t : Table) (f : String → String) : Table :=
  { cols := t.cols.map f,
    rows := t.rows.map (fun r => ⟨r.cells.map (fun kv => (f kv.1, kv.2))⟩) }

/-- `COLS_TO_DROP` from the source configuration. -/
def COLS_TO_DROP : List String := ["Surname", "Forename"]

/-- Split a character list at every occurrence of `sep` (the semantics of
`str.split` for a one-character separator). -/
def splitOnChar (sep : Char) : List Char → List (List Char)
  | [] => [[]]
  | c :: cs =>
    match splitOnChar sep cs with
    | [] => [[]]
    | g :: gs => if c = sep then [] :: g :: gs else (c :: g) :: gs

/-- Accumulate a decimal value, failing on a non-digit. -/
def digitsVal : List Char → Nat → Option Nat
  | [], acc => some acc
  | c :: cs, acc => if c.isDigit then digitsVal cs (acc * 10 + (c.toNat - 48)) else none

/-- A non-empty all-digit numeral. -/
def digitsToNat (l : List Char) : Option Nat :=
  match l with
  | [] => none
  | _ => digitsVal l 0

/-- Strip leading and trailing whitespace. -/
def trimChars (l : List Char) : List Char :=
  ((l.dropWhile Char.isWhitespace).reverse.dropWhile Char.isWhitespace).reverse

/-- `str.strip()` on one string. -/
def trimStr (s : String) : String := ⟨trimChars s.data⟩

/-- Join-key normalization `str(x).upper().replace(' ', '')`. -/
def normKey (s : String) : String :=
  ⟨(s.data.map Char.toUpper).filter (fun c => !(c == ' '))⟩

/-- `load_and_clean_pain_data`, after the spreadsheet has been parsed
(`header=4` row selection is part of file parsing, outside the model):
strip whitespace from every column name, drop identity columns if present. -/
def load_and_clean_pain_data (t : Table) : Table :=
  (t.renameCols trimStr).dropCols COLS_TO_DROP

/-- `astype(str)` on one cell.  Postcodes in practice are strings or NaN;
numeric and timestamp renderings are deterministic stand-ins for Python's. -/
def Cell.toStr : Cell → String
  | .str s => s
  | .num q => toString q
  | .dt t => toString t
  | .null => "nan"

/-- `create_join_keys`: `df['Join_Key'] = df['Postcode'].astype(str).str.upper().str.replace(' ', '')`.
Accessing a missing `Postcode` column raises a `KeyError`, modelled as `none`. -/
def create_join_keys (t : Table) : Option Table :=
  if "Postcode" ∈ t.cols then
    some (t.addCol "Join_Key" (fun r => .str (normKey (r.get "Postcode").toStr)))
  else none

/-- `map_quintile`: decile (1–10) to quintile label; `pd.isna` guard first.
Comparing a non-numeric, non-null decile with `<=` raises a `TypeError` in
Python, modelled as `none`. -/
def map_quintile : Cell → Option String
  | .null => some "Unknown"
  | .num d =>
    some (if d ≤ 2 then "1 - Most Deprived"
      else if d ≤ 4 then "2"
      else if d ≤ 6 then "3"
      else if d ≤ 8 then "4"
      else "5 - Least Deprived")
  | _ => none

/-- One left row's contribution to `df.merge(imd[['Join_Key','IMD_Decile']],
on='Join_Key', how='left')`: one output row per matching reference row, or a
single row with null decile when nothing matches. -/
def mergeRows (r : Row) (ref : List Row) : List Row :=
  match ref.filter (fun m => m.get "Join_Key" == r.get "Join_Key") with
  | [] => [r.set "IMD_Decile" Cell.null]
  | ms => ms.map (fun m => r.set "IMD_Decile" (m.get "IMD_Decile"))

/-- The pandas left merge on `Join_Key`, bringing in `IMD_Decile`. -/
def leftMergeIMD (t : Table) (im : Table) : Table :=
  { cols := if "IMD_Decile" ∈ t.cols then t.cols else t.cols ++ ["IMD_Decile"],
    rows := (t.rows.map (fun r => mergeRows r im.rows)).flatten }

/-- Apply a fallible per-row transformation to every row, failing as soon as
one row raises. -/
def optRows (f : Row → Option Row) : List Row → Option (List Row)
  | [] => some []
  | r :: rs =>
    match f r, optRows f rs with
    | some r', some rs' => some (r' :: rs')
    | _, _ => none

/-- `df['IMD_Quintile'] = df['IMD_Decile'].apply(map_quintile)`; fails (none)
if the mapping raises on any row. -/
def applyQuintile (t : Table) : Option Table :=
  (optRows (fun r =>
      (map_quintile (r.get "IMD_Decile")).map (fun q => r.set "IMD_Quintile" (.str q)))
    t.rows).map
    (fun rs =>
      { cols := if "IMD_Quintile" ∈ t.cols then t.cols else t.cols ++ ["IMD_Quintile"],
        rows := rs })

/-- `merge_with_imd_data`: if reference data is present and non-empty, left
merge, map quintiles, then drop `Postcode`, `Join_Key`, `Postcode_Gov`
(`errors='ignore'`; note `IMD_Decile` is not in the drop list). Otherwise set
`IMD_Quintile = 'Unknown'` for every record. -/
def merge_with_imd_data (t : Table) (imd : Option Table) : Option Table :=
  match imd with
  | some im =>
    if im.rows.isEmpty || im.cols.isEmpty then
      some (t.addCol "IMD_Quintile" (fun _ => .str "Unknown"))
    else
      (applyQuintile (leftMergeIMD t im)).map
        (fun t2 => t2.dropCols ["Postcode", "Join_Key", "Postcode_Gov"])
  | none => some (t.addCol "IMD_Quintile" (fun _ => .str "Unknown"))

/-- Month abbreviation (`%b`, case-insensitive as in Python's strptime). -/
def monthNum (l : List Char) : Option Nat :=
  match l.map Char.toLower with
  | ['j', 'a', 'n'] => some 1
  | ['f', 'e', 'b'] => some 2
  | ['m', 'a', 'r'] => some 3
  | ['a', 'p', 'r'] => some 4
  | ['m', 'a', 'y'] => some 5
  | ['j', 'u', 'n'] => some 6
  | ['j', 'u', 'l'] => some 7
  | ['a', 'u', 'g'] => some 8
  | ['s', 'e', 'p'] => some 9
  | ['o', 'c', 't'] => some 10
  | ['n', 'o', 'v'] => some 11
  | ['d', 'e', 'c'] => some 12
  | _ => none

/-- A 1- or 2-digit decimal field (strptime numeric fields accept 1–2 digits). -/
def parse2 (l : List Char) : Option Nat :=
  if 1 ≤ l.length ∧ l.length ≤ 2 then digitsToNat l else none

/-- Gregorian leap year. -/
def isLeap (y : Int) : Bool :=
  y % 4 == 0 && (y % 100 != 0 || y % 400 == 0)

/-- Length of a month. -/
def daysInMonth (y : Int) (m : Nat) : Nat :=
  if m = 2 then (if isLeap y then 29 else 28)
  else if m = 4 ∨ m = 6 ∨ m = 9 ∨ m = 11 then 30
  else 31

/-- Days since 1970-01-01 of a civil date (standard era/year-of-era
computation; years here are 1969–2068, so the quotients are nonnegative). -/
def daysFromCivil (y : Int) (m : Nat) (d : Nat) : Int :=
  let y' := if m ≤ 2 then y - 1 else y
  let era := (if 0 ≤ y' then y' else y' - 399) / 400
  let yoe := (y' - era * 400).toNat
  let mp := if 2 < m then m - 3 else m + 9
  let doy := (153 * mp + 2) / 5 + d - 1
  let doe := yoe * 365 + yoe / 4 - yoe / 100 + doy
  era * 146097 + (doe : Int) - 719468

/-- `pd.to_datetime(x, format='%d-%b-%y %H:%M', errors='coerce')` on one
string: minutes since the epoch, or `none` on any mismatch.  Two-digit years
follow Python's pivot: 69–99 → 1900s, 00–68 → 2000s. -/
def parseDT (s : String) : Option Int :=
  match splitOnChar ' ' s.data with
  | [ds, ts] =>
    match splitOnChar '-' ds, splitOnChar ':' ts with
    | [dd, mon, yy], [hh, mi] => do
      let d ← parse2 dd
      let mo ← monthNum mon
      let y2 ← parse2 yy
      let h ← parse2 hh
      let mn ← parse2 mi
      let y : Int := if 69 ≤ y2 then 1900 + y2 else 2000 + y2
      if 1 ≤ d ∧ d ≤ daysInMonth y mo ∧ h ≤ 23 ∧ mn ≤ 59 then
        some (daysFromCivil y mo d * 1440 + h * 60 + mn)
      else none
    | _, _ => none
  | _ => none

/-- Datetime coercion of one cell under `errors='coerce'`: strings parse or
become null (NaT); already-datetime values pass through; anything else (a
number with a string format, or NaN) coerces to null. -/
def Cell.toDT : Cell → Cell
  | .str s => match parseDT s with | some t => .dt t | none => .null
  | .dt t => .dt t
  | _ => .null

/-- The five timestamp columns (`date_cols` / `required_date_cols`). -/
def dateColsList : List String :=
  ["Arrival DTTM", "Triage DTTM", "First Pain Score DTTM",
   "First Analgesia DTTM", "Second Pain Score DTTM"]

/-- `convert_date_columns`: coerce each listed column that is present. -/
def convert_date_columns (t : Table) (dateCols : List String) : Table :=
  dateCols.foldl (fun acc c => if c ∈ acc.cols then acc.mapCol c Cell.toDT else acc) t

/-- `(a - b).dt.total_seconds() / 60` for one pair of cells: timestamps are in
minutes, so this is their signed difference; a null (NaT) operand yields
null (NaN). -/
def cellSubDT (a b : Cell) : Cell :=
  match a, b with
  | .dt x, .dt y => .num ((x - y : Int) : ℚ)
  | _, _ => .null

/-- `calculate_time_intervals`.  The second component is the warning payload:
the missing required date columns printed by the source (empty when all five
are present).  When any is missing the table is returned unchanged. -/
def calculate_time_intervals (t : Table) : Table × List String :=
  let missing := dateColsList.filter (fun c => !(t.cols.contains c))
  if missing.isEmpty then
    let t1 := t.addCol "Time_to_Triage_Mins"
      (fun r => cellSubDT (r.get "Triage DTTM") (r.get "Arrival DTTM"))
    let t2 := t1.addCol "Time_to_PS1_Mins"
      (fun r => cellSubDT (r.get "First Pain Score DTTM") (r.get "Arrival DTTM"))
    let t3 := t2.addCol "Time_to_A1_Mins"
      (fun r => cellSubDT (r.get "First Analgesia DTTM") (r.get "Arrival DTTM"))
    let t4 := t3.addCol "Time_to_PS2_Mins"
      (fun r => cellSubDT (r.get "Second Pain Score DTTM") (r.get "Arrival DTTM"))
    let t5 := t4.addCol "A1_to_PS2_Mins"
      (fun r => cellSubDT (r.get "Second Pain Score DTTM") (r.get "First Analgesia DTTM"))
    let t6 := t5.addCol "PS2_to_A1_Mins"
      (fun r => cellSubDT (r.get "First Analgesia DTTM") (r.get "Second Pain Score DTTM"))
    (t6, [])
  else (t, missing)

/-- `score_map` applied through `Series.map`: unmapped labels become NaN. -/
def score_map : Cell → Cell
  | .str "No Pain" => .num 0
  | .str "Mild Pain" => .num 1
  | .str "Mod Pain" => .num 2
  | .str "Sev Pain" => .num 3
  | _ => .null

/-- Numeric subtraction with NaN propagation. -/
def cellSubNum (a b : Cell) : Cell :=
  match a, b with
  | .num x, .num y => .num (x - y)
  | _, _ => .null

/-- `calculate_pain_scores`; raises (`none`) if either pain-score column is
absent. -/
def calculate_pain_scores (t : Table) : Option Table :=
  if "First Pain Score" ∈ t.cols ∧ "Second Pain Score" ∈ t.cols then
    let t1 := t.addCol "First_Score_Num" (fun r => score_map (r.get "First Pain Score"))
    let t2 := t1.addCol "Second_Score_Num" (fun r => score_map (r.get "Second Pain Score"))
    some (t2.addCol "Pain_Score_Improvement"
      (fun r => cellSubNum (r.get "Second_Score_Num") (r.get "First_Score_Num")))
  else none

/-- Decimal numeral (optional sign, optional fractional part), the shape of
values `pd.to_numeric` meets in the Age column; scientific notation does not
occur there and is not modelled. -/
def parseNumQ (s : String) : Option ℚ :=
  let l := trimChars s.data
  let neg : Bool := match l with | '-' :: _ => true | _ => false
  let body : List Char :=
    match l with
    | '-' :: rest => rest
    | '+' :: rest => rest
    | _ => l
  match splitOnChar '.' body with
  | [ip] => (digitsToNat ip).map (fun n => if neg then -(n : ℚ) else (n : ℚ))
  | [ip, fp] =>
    if ip.isEmpty && fp.isEmpty then none
    else do
      let ni ← if ip.isEmpty then some 0 else digitsToNat ip
      let nf ← if fp.isEmpty then some 0 else digitsToNat fp
      let mag : ℚ := (ni : ℚ) + (nf : ℚ) / ((10 : ℚ) ^ fp.length)
      some (if neg then -mag else mag)
  | _ => none

/-- `pd.to_numeric(x, errors='coerce')` on one cell. -/
def Cell.toNumeric : Cell → Cell
  | .num q => .num q
  | .str s => match parseNumQ s with | some q => .num q | none => .null
  | _ => .null

/-- `age_bins` from the source. -/
def ageBins : List ℚ := [0, 15, 25, 35, 45, 55, 65, 75, 85, 95, 150]

/-- `age_labels` from the source. -/
def ageLabels : List String :=
  ["0-15", "15-25", "25-35", "35-45", "45-55", "55-65", "65-75", "75-85", "85-95", "95+"]

/-- Locate `q` in consecutive right-open bands `[lo, hi)` (`pd.cut` with
`right=False`). -/
def cutFind (q : ℚ) : List ℚ → List String → Option String
  | lo :: hi :: bs, lab :: labs =>
    if lo ≤ q ∧ q < hi then some lab else cutFind q (hi :: bs) labs
  | _, _ => none

/-- `pd.cut(x, bins=age_bins, labels=age_labels, right=False)` on one cell:
values outside every band (and non-numbers) are unbucketed (null). -/
def cutCell (v : Cell) : Cell :=
  match v with
  | .num q => match cutFind q ageBins ageLabels with | some lab => .str lab | none => .null
  | _ => .null

/-- `create_age_groups`; raises (`none`) if the Age column is absent. -/
def create_age_groups (t : Table) : Option Table :=
  if "Age" ∈ t.cols then
    let t1 := t.mapCol "Age" Cell.toNumeric
    some (t1.addCol "Age_Group" (fun r => cutCell (r.get "Age")))
  else none

/-- `series <= q` on one cell: NaN compares false.  (Interval columns only
ever hold numbers or NaN.) -/
def cellLE (c : Cell) (q : ℚ) : Bool :=
  match c with | .num x => x ≤ q | _ => false

/-- `series > q` on one cell: NaN compares false. -/
def cellGT (c : Cell) (q : ℚ) : Bool :=
  match c with | .num x => q < x | _ => false

/-- `condition_mod` of `calculate_best_practice`, per row. -/
def condition_mod (r : Row) : Bool :=
  (r.get "First Pain Score" == .str "Mod Pain") &&
    cellLE (r.get "Time_to_A1_Mins") 15 &&
    cellLE (r.get "A1_to_PS2_Mins") 30 &&
    cellGT (r.get "A1_to_PS2_Mins") 0

/-- `condition_sev` of `calculate_best_practice`, per row. -/
def condition_sev (r : Row) : Bool :=
  (r.get "First Pain Score" == .str "Sev Pain") &&
    cellLE (r.get "Time_to_A1_Mins") 15 &&
    cellLE (r.get "A1_to_PS2_Mins") 15 &&
    cellGT (r.get "A1_to_PS2_Mins") 0

/-- The `np.where` combination assigning `Best_Practice`. -/
def bestPracticeRow (r : Row) : String :=
  if cellLE (r.get "Time_to_PS1_Mins") 15 && (condition_mod r || condition_sev r)
  then "Yes" else "No"

/-- Row predicates used by the funnel masks. -/
def ps1le (r : Row) : Bool := cellLE (r.get "Time_to_PS1_Mins") 15

/-- `df['Time_to_A1_Mins'] <= 15` per row. -/
def a1le (r : Row) : Bool := cellLE (r.get "Time_to_A1_Mins") 15

/-- `df['First Pain Score'] == 'Sev Pain'` per row. -/
def isSev (r : Row) : Bool := r.get "First Pain Score" == .str "Sev Pain"

/-- `df['First Pain Score'] == 'Mod Pain'` per row. -/
def isMod (r : Row) : Bool := r.get "First Pain Score" == .str "Mod Pain"

/-- `df['Best_Practice'] == 'Yes'` per row. -/
def bpYes (r : Row) : Bool := r.get "Best_Practice" == .str "Yes"

/-- The Sankey/funnel payload returned alongside the table. -/
structure Sankey where
  labels : List String
  source : List Nat
  target : List Nat
  value : List Int
  total_patients : Int
  best_practice_yes : Int
  best_practice_no : Int
deriving DecidableEq

/-- The columns `calculate_best_practice` reads; accessing any of them while
absent raises a `KeyError`. -/
def bpCols : List String :=
  ["First Pain Score", "Time_to_PS1_Mins", "Time_to_A1_Mins", "A1_to_PS2_Mins"]

/-- `df['Best_Practice'] = np.where(..., 'Yes', 'No')`: the table with the
compliance column assigned. -/
def bpTable (t : Table) : Table :=
  t.addCol "Best_Practice" (fun r => .str (bestPracticeRow r))

/-- `total_patients = len(df)`. -/
def cTotal (t : Table) : Int := (bpTable t).rows.length

/-- `ps1_15_mins`. -/
def cPS1 (t : Table) : Int := (bpTable t).rows.countP ps1le

/-- `severe_ps1_15_mins`. -/
def cSevPS1 (t : Table) : Int := (bpTable t).rows.countP (fun r => isSev r && ps1le r)

/-- `moderate_ps1_15_mins`. -/
def cModPS1 (t : Table) : Int := (bpTable t).rows.countP (fun r => isMod r && ps1le r)

/-- `best_practice_yes`. -/
def cBPYes (t : Table) : Int := (bpTable t).rows.countP bpYes

/-- `best_practice_no`. -/
def cBPNo (t : Table) : Int :=
  (bpTable t).rows.countP (fun r => r.get "Best_Practice" == .str "No")

/-- `severe_ps1_a1_15_mins`. -/
def cSevPS1A1 (t : Table) : Int :=
  (bpTable t).rows.countP (fun r => isSev r && ps1le r && a1le r)

/-- `moderate_ps1_a1_15_mins`. -/
def cModPS1A1 (t : Table) : Int :=
  (bpTable t).rows.countP (fun r => isMod r && ps1le r && a1le r)

/-- `severe_best_practice`. -/
def cSevBP (t : Table) : Int := (bpTable t).rows.countP (fun r => isSev r && bpYes r)

/-- `moderate_best_practice`. -/
def cModBP (t : Table) : Int := (bpTable t).rows.countP (fun r => isMod r && bpYes r)

/-- `calculate_best_practice`: assign the `Best_Practice` column, then compute
the funnel counts by independent boolean masks over the (updated) table, and
package labels/edges exactly as the source does. -/
def calculate_best_practice (t : Table) : Option (Table × Sankey) :=
  if bpCols.all (fun c => t.cols.contains c) then
    let t' := bpTable t
    let total : Int := cTotal t
    let ps1 : Int := cPS1 t
    let sev_ps1 : Int := cSevPS1 t
    let mod_ps1 : Int := cModPS1 t
    let bp_yes : Int := cBPYes t
    let bp_no : Int := cBPNo t
    let sev_ps1_a1 : Int := cSevPS1A1 t
    let mod_ps1_a1 : Int := cModPS1A1 t
    let sev_bp : Int := cSevBP t
    let mod_bp : Int := cModBP t
    some (t',
      { labels :=
          ["Total Patients (" ++ toString total ++ ")",
           "PS1 <= 15 Mins (" ++ toString ps1 ++ ")",
           "PS1 > 15 Mins (" ++ toString (total - ps1) ++ ")",
           "Severe Pain (PS1 <= 15 Mins) (" ++ toString sev_ps1 ++ ")",
           "Moderate Pain (PS1 <= 15 Mins) (" ++ toString mod_ps1 ++ ")",
           "Sev Pain (PS1 & A1 <= 15 Mins) (" ++ toString sev_ps1_a1 ++ ")",
           "Mod Pain (PS1 & A1 <= 15 Mins) (" ++ toString mod_ps1_a1 ++ ")",
           "Sev Pain (PS1&A1>15Mins) (" ++ toString (sev_ps1 - sev_ps1_a1) ++ ")",
           "Mod Pain (PS1&A1>15Mins) (" ++ toString (mod_ps1 - mod_ps1_a1) ++ ")",
           "Severe Pain Best Practice (" ++ toString sev_bp ++ ")",
           "Moderate Pain Best Practice (" ++ toString mod_bp ++ ")",
           "Sev Pain (No Best Practice) (" ++ toString (sev_ps1_a1 - sev_bp) ++ ")",
           "Mod Pain (No Best Practice) (" ++ toString (mod_ps1_a1 - mod_bp) ++ ")"],
        source := [0, 0, 1, 1, 3, 3, 4, 4, 5, 5, 6, 6],
        target := [1, 2, 3, 4, 5, 7, 6, 8, 9, 11, 10, 12],
        value :=
          [ps1, total - ps1, sev_ps1, mod_ps1,
           sev_ps1_a1, sev_ps1 - sev_ps1_a1, mod_ps1_a1, mod_ps1 - mod_ps1_a1,
           sev_bp, sev_ps1_a1 - sev_bp, mod_bp, mod_ps1_a1 - mod_bp],
        total_patients := total,
        best_practice_yes := bp_yes,
        best_practice_no := bp_no })
  else none

/-- Inverse of `daysFromCivil`: civil (year, month, day) of a day number. -/
def civilFromDays (z0 : Int) : Int × Nat × Nat :=
  let z := z0 + 719468
  let era := (if 0 ≤ z then z else z - 146096) / 146097
  let doe := (z - era * 146097).toNat
  let yoe := (doe - doe / 1460 + doe / 36524 - doe / 146096) / 365
  let y := (yoe : Int) + era * 400
  let doy := doe - (365 * yoe + yoe / 4 - yoe / 100)
  let mp := (5 * doy + 2) / 153
  let d := doy - (153 * mp + 2) / 5 + 1
  let m := if mp < 10 then mp + 3 else mp - 9
  ((if m ≤ 2 then y + 1 else y), m, d)

/-- Zero-padded two-digit rendering. -/
def pad2 (n : Nat) : String :=
  if n < 10 then "0" ++ toString n else toString n

/-- `x.dt.to_period('M').astype(str)` on one cell: "YYYY-MM" for a timestamp,
"NaT" for null (the column has been datetime-coerced before this runs). -/
def reportMonth (c : Cell) : Cell :=
  match c with
  | .dt t =>
    let ymd := civilFromDays (Int.fdiv t 1440)
    .str (toString ymd.1 ++ "-" ++ pad2 ymd.2.1)
  | .null => .str "NaT"
  | _ => .null

/-- The outcome of `process_monthly_data`'s successful paths: the source
returns a plain DataFrame when `'Arrival DTTM'` is absent and (by the
`df = calculate_best_practice(df)` assignment) a (DataFrame, sankey) tuple
otherwise. -/
inductive ProcOutput where
  | df (t : Table)
  | dfSankey (t : Table) (s : Sankey)
deriving DecidableEq

/-- `process_monthly_data` (the later definition in the file, which shadows
the earlier one): load/clean, join keys, IMD merge, date conversion, then —
only when `'Arrival DTTM'` is present — report month, intervals, pain scores,
age groups and best practice.  Any exception yields `none`. -/
def process_monthly_data (raw : Table) (imd : Option Table) : Option ProcOutput := do
  let t0 := load_and_clean_pain_data raw
  let t1 ← create_join_keys t0
  let t2 ← merge_with_imd_data t1 imd
  let t3 := convert_date_columns t2 dateColsList
  if "Arrival DTTM" ∈ t3.cols then
    let t4 := t3.addCol "Report_Month" (fun r => reportMonth (r.get "Arrival DTTM"))
    let t5 := (calculate_time_intervals t4).1
    let t6 ← calculate_pain_scores t5
    let t7 ← create_age_groups t6
    let (t8, sk) ← calculate_best_practice t7
    return ProcOutput.dfSankey t8 sk
  else
    return ProcOutput.df t3

/-- Result of `calculate_stats`: the three dictionary shapes the source can
return. -/
inductive StatsResult where
  | insufficient
  | ok (test : String) (p : ℚ) (significant : Bool) (message : String)
  | err
deriving DecidableEq

/-- `Series.unique()` order: first occurrences. -/
def uniqueFirst (l : List Cell) : List Cell :=
  l.foldl (fun acc c => if acc.contains c then acc else acc ++ [c]) []

/-- `Series.dropna()`. -/
def dropNulls (l : List Cell) : List Cell :=
  l.filter (fun c => c != Cell.null)

/-- The values of one column, in row order. -/
def colValues (t : Table) (c : String) : List Cell :=
  t.rows.map (fun r => r.get c)

/-- `groups = df[group_col].dropna().unique()`. -/
def statsGroups (t : Table) (group_col : String) : List Cell :=
  uniqueFirst (dropNulls (colValues t group_col))

/-- `group_data = [df[df[group_col] == g][target_col].dropna() for g in groups]`. -/
def statsGroupData (t : Table) (group_col target_col : String) : List (List Cell) :=
  (statsGroups t group_col).map (fun g =>
    dropNulls ((t.rows.filter (fun r => r.get group_col == g)).map
      (fun r => r.get target_col)))

/-- `calculate_stats`.  The scipy calls are external: they are passed in as
functions returning `(statistic, p-value)` or `none` when they raise (e.g. on
degenerate data); `mannwhitneyu` is called with its defaults (two-sided).
A missing `group_col` raises a `KeyError` inside the `try`, hence `err`; a
missing `target_col` raises only if the group list comprehension actually
iterates (`groups` non-empty). -/
def calculate_stats
    (mwu : List Cell → List Cell → Option (ℚ × ℚ))
    (kru : List (List Cell) → Option (ℚ × ℚ))
    (t : Table) (group_col target_col : String) : StatsResult :=
  if !(t.cols.contains group_col) then .err
  else
    let groups := statsGroups t group_col
    if !groups.isEmpty && !(t.cols.contains target_col) then .err
    else
      let group_data := statsGroupData t group_col target_col
      if groups.length < 2 then .insufficient
      else
        let res : Option (String × ℚ) :=
          if groups.length = 2 then
            (mwu (group_data.getD 0 []) (group_data.getD 1 [])).map
              (fun sp => ("Mann-Whitney U", sp.2))
          else
            (kru group_data).map (fun sp => ("Kruskal-Wallis", sp.2))
        match res with
        | none => .err
        | some np =>
          .ok np.1 np.2 (decide (np.2 < 1/20))
            (if np.2 < 1/20 then "Statistically Significant Difference"
             else "No Significant Difference")

/-! ### Basic lemmas about the table model -/

@[simp]
theorem Row.get_set (r : Row) (c : String) (v : Cell) (c' : String) :
    (r.set c v).get c' = if c' = c then v else r.get c' := by
  by_cases h : c' = c
  · simp [Row.set, Row.get, List.lookup, h]
  · have hb : (c' == c) = false := beq_eq_false_iff_ne.mpr h
    simp [Row.set, Row.get, List.lookup, hb, h]

theorem Row.get_dropCols_not_mem (r : Row) (cs : List String) (c : String)
    (h : cs.contains c = false) :
    (r.dropCols cs).get c = r.get c := by
  obtain ⟨cells⟩ := r
  simp only [Row.dropCols, Row.get]
  induction cells with
  | nil => rfl
  | cons kv tl ih =>
    obtain ⟨k, v⟩ := kv
    have h' : c ∉ cs := by simpa using h
    by_cases hck : c = k
    · subst hck
      simp [List.filter_cons, h', List.lookup_cons]
    · have hb : (c == k) = false := beq_eq_false_iff_ne.mpr hck
      by_cases hkp : k ∈ cs
      · simpa [List.filter_cons, hkp, List.lookup_cons, hb] using ih
      · simpa [List.filter_cons, hkp, List.lookup_cons, hb] using ih

theorem Table.cols_addCol (t : Table) (c : String) (f : Row → Cell) :
    (t.addCol c f).cols = if c ∈ t.cols then t.cols else t.cols ++ [c] := rfl

theorem Table.mem_cols_addCol (t : Table) (c : String) (f : Row → Cell) (c' : String) :
    c' ∈ (t.addCol c f).cols ↔ c' ∈ t.cols ∨ c' = c := by
  simp only [Table.cols_addCol]
  by_cases h : c ∈ t.cols
  · rw [if_pos h]
    constructor
    · exact Or.inl
    · rintro (hc | rfl)
      · exact hc
      · exact h
  · rw [if_neg h]
    simp [List.mem_append]

theorem Table.mem_cols_dropCols (t : Table) (cs : List String) (c : String) :
    c ∈ (t.dropCols cs).cols ↔ c ∈ t.cols ∧ ¬ cs.contains c := by
  simp [Table.dropCols, List.mem_filter]

theorem Table.rows_addCol (t : Table) (c : String) (f : Row → Cell) :
    (t.addCol c f).rows = t.rows.map (fun r => r.set c (f r)) := rfl

theorem Table.cols_mapCol (t : Table) (c : String) (f : Cell → Cell) :
    (t.mapCol c f).cols = t.cols := rfl

theorem optRows_length (f : Row → Option Row) (l : List Row) (l' : List Row)
    (h : optRows f l = some l') : l'.length = l.length := by
  induction l generalizing l' with
  | nil =>
    simp only [optRows, Option.some.injEq] at h
    subst h; rfl
  | cons r rs ih =>
    simp only [optRows] at h
    cases hf : f r <;> rw [hf] at h
    · exact absurd h (by simp)
    · cases ho : optRows f rs <;> rw [ho] at h
      · exact absurd h (by simp)
      · rename_i r' l2
        simp only [Option.some.injEq] at h
        subst h
        simp [ih l2 ho]

theorem optRows_forall (f : Row → Option Row) (l : List Row) (l' : List Row)
    (h : optRows f l = some l') :
    ∀ r ∈ l, ∃ r' ∈ l', f r = some r' := by
  induction l generalizing l' with
  | nil => simp
  | cons a rs ih =>
    simp only [optRows] at h
    cases hf : f a <;> rw [hf] at h
    · exact absurd h (by simp)
    · cases ho : optRows f rs <;> rw [ho] at h
      · exact absurd h (by simp)
      · rename_i a' l2
        simp only [Option.some.injEq] at h
        subst h
        intro r hr
        rcases List.mem_cons.mp hr with rfl | hmem
        · exact ⟨a', List.mem_cons_self _ _, hf⟩
        · obtain ⟨r', hr', hfr⟩ := ih l2 ho r hmem
          exact ⟨r', List.mem_cons_of_mem _ hr', hfr⟩

theorem mem_cols_leftMergeIMD (t im : Table) (c : String) :
    c ∈ (leftMergeIMD t im).cols ↔ c ∈ t.cols ∨ c = "IMD_Decile" := by
  simp only [leftMergeIMD]
  by_cases h : "IMD_Decile" ∈ t.cols
  · rw [if_pos h]
    constructor
    · exact Or.inl
    · rintro (hc | rfl)
      · exact hc
      · exact h
  · rw [if_neg h]
    simp [List.mem_append]

theorem applyQuintile_eq (t t' : Table) (h : applyQuintile t = some t') :
    (∃ rs, optRows (fun r =>
        (map_quintile (r.get "IMD_Decile")).map (fun q => r.set "IMD_Quintile" (.str q)))
        t.rows = some rs ∧ t'.rows = rs) ∧
    t'.cols = if "IMD_Quintile" ∈ t.cols then t.cols else t.cols ++ ["IMD_Quintile"] := by
  unfold applyQuintile at h
  cases ho : optRows (fun r =>
      (map_quintile (r.get "IMD_Decile")).map (fun q => r.set "IMD_Quintile" (.str q)))
      t.rows <;> rw [ho] at h
  · exact absurd h (by simp)
  · rename_i rs
    have h' : some ({ cols := if "IMD_Quintile" ∈ t.cols then t.cols
        else t.cols ++ ["IMD_Quintile"], rows := rs } : Table) = some t' := h
    rw [Option.some_inj] at h'
    subst h'
    exact ⟨⟨rs, rfl, rfl⟩, rfl⟩

theorem create_join_keys_mem_cols (t t' : Table) (h : create_join_keys t = some t')
    (c : String) (hc : c ≠ "Join_Key") : (c ∈ t'.cols ↔ c ∈ t.cols) := by
  unfold create_join_keys at h
  split at h
  · rw [Option.some_inj] at h
    subst h
    rw [Table.mem_cols_addCol]
    simp [hc]
  · exact absurd h (by simp)

theorem merge_mem_cols (t : Table) (imd : Option Table) (t2 : Table)
    (h : merge_with_imd_data t imd = some t2) (c : String)
    (hq : c ≠ "IMD_Quintile") (hd : c ≠ "IMD_Decile") (hp : c ≠ "Postcode")
    (hj : c ≠ "Join_Key") (hg : c ≠ "Postcode_Gov") :
    (c ∈ t2.cols ↔ c ∈ t.cols) := by
  have hunk : ∀ u : Table, some (u.addCol "IMD_Quintile" (fun _ => Cell.str "Unknown")) = some t2 →
      u = t → (c ∈ t2.cols ↔ c ∈ t.cols) := by
    intro u hu hut
    rw [Option.some_inj] at hu
    subst hu; subst hut
    rw [Table.mem_cols_addCol]
    simp [hq]
  cases imd with
  | none =>
    exact hunk t h rfl
  | some im =>
    have h' : (if (im.rows.isEmpty || im.cols.isEmpty) = true
        then some (t.addCol "IMD_Quintile" (fun _ => Cell.str "Unknown"))
        else Option.map (fun u => u.dropCols ["Postcode", "Join_Key", "Postcode_Gov"])
          (applyQuintile (leftMergeIMD t im))) = some t2 := h
    split at h'
    · exact hunk t h' rfl
    · cases hq2 : applyQuintile (leftMergeIMD t im) <;> rw [hq2] at h'
      · exact absurd h' (by simp)
      · rename_i tq
        have h'' : some (tq.dropCols ["Postcode", "Join_Key", "Postcode_Gov"]) = some t2 := h'
        rw [Option.some_inj] at h''
        subst h''
        rw [Table.mem_cols_dropCols]
        have hcols := (applyQuintile_eq _ _ hq2).2
        have hmem : c ∈ tq.cols ↔ c ∈ t.cols := by
          rw [hcols]
          by_cases hin : "IMD_Quintile" ∈ (leftMergeIMD t im).cols
          · rw [if_pos hin, mem_cols_leftMergeIMD]
            simp [hd]
          · rw [if_neg hin]
            simp [List.mem_append, mem_cols_leftMergeIMD, hd, hq]
        rw [hmem]
        simp [hp, hj, hg]

theorem convert_date_columns_cols (t : Table) (cs : List String) :
    (convert_date_columns t cs).cols = t.cols := by
  induction cs generalizing t with
  | nil => rfl
  | cons c cs ih =>
    have h1 : convert_date_columns t (c :: cs) =
        convert_date_columns (if c ∈ t.cols then t.mapCol c Cell.toDT else t) cs := by
      simp only [convert_date_columns, List.foldl_cons]
    rw [h1, ih]
    split <;> rfl

theorem countP_add_le_countP (l : List Row) (p q r : Row → Bool)
    (hpr : ∀ a ∈ l, p a = true → r a = true)
    (hqr : ∀ a ∈ l, q a = true → r a = true)
    (hpq : ∀ a ∈ l, ¬(p a = true ∧ q a = true)) :
    l.countP p + l.countP q ≤ l.countP r := by
  induction l with
  | nil => simp
  | cons a tl ih =>
    have ha := hpq a (by simp)
    have h1 := hpr a (by simp)
    have h2 := hqr a (by simp)
    have ih' := ih (fun x hx => hpr x (by simp [hx])) (fun x hx => hqr x (by simp [hx]))
      (fun x hx => hpq x (by simp [hx]))
    simp only [List.countP_cons]
    cases hp : p a <;> cases hq : q a <;> cases hr : r a <;> simp_all <;> omega

/-! ### Cell comparison semantics -/

/-- The spec's reading of "field ≤ b": the cell holds a number that is ≤ b
(a null field satisfies no comparison). -/
def hasNumLE (c : Cell) (b : ℚ) : Prop :=
  ∃ q : ℚ, c = Cell.num q ∧ q ≤ b

/-- The spec's reading of "lo < field ≤ hi". -/
def hasNumInIoc (c : Cell) (lo hi : ℚ) : Prop :=
  ∃ q : ℚ, c = Cell.num q ∧ lo < q ∧ q ≤ hi

theorem cellLE_iff (c : Cell) (b : ℚ) : cellLE c b = true ↔ hasNumLE c b := by
  cases c <;> simp [cellLE, hasNumLE]

theorem cellGT_iff (c : Cell) (b : ℚ) : cellGT c b = true ↔ ∃ q : ℚ, c = Cell.num q ∧ b < q := by
  cases c <;> simp [cellGT]

theorem Ioc_split (c : Cell) (lo hi : ℚ) :
    ((∃ q : ℚ, c = Cell.num q ∧ q ≤ hi) ∧ (∃ q : ℚ, c = Cell.num q ∧ lo < q)) ↔
      hasNumInIoc c lo hi := by
  cases c <;> simp [hasNumInIoc]
  tauto

/-! ### C1: the Best_Practice rule -/

/-- **C1.**  For every record, `Best_Practice = "Yes"` iff
`Time_to_PS1_Mins ≤ 15` and either (First Pain Score = "Mod Pain",
`Time_to_A1_Mins ≤ 15`, `0 < A1_to_PS2_Mins ≤ 30`) or (First Pain Score =
"Sev Pain", `Time_to_A1_Mins ≤ 15`, `0 < A1_to_PS2_Mins ≤ 15`); otherwise
"No".  `A1_to_PS2_Mins = 0` disqualifies, `A1_to_PS2_Mins = 16` disqualifies
the severe branch, and the result depends on no field other than the four
named ones. -/
theorem C1_best_practice_rule :
    (∀ r : Row,
      bestPracticeRow r = "Yes" ↔
        (hasNumLE (r.get "Time_to_PS1_Mins") 15 ∧
          ((r.get "First Pain Score" = Cell.str "Mod Pain" ∧
              hasNumLE (r.get "Time_to_A1_Mins") 15 ∧
              hasNumInIoc (r.get "A1_to_PS2_Mins") 0 30) ∨
           (r.get "First Pain Score" = Cell.str "Sev Pain" ∧
              hasNumLE (r.get "Time_to_A1_Mins") 15 ∧
              hasNumInIoc (r.get "A1_to_PS2_Mins") 0 15)))) ∧
    (∀ r : Row, bestPracticeRow r = "Yes" ∨ bestPracticeRow r = "No") ∧
    (∀ r : Row, r.get "A1_to_PS2_Mins" = Cell.num 0 → bestPracticeRow r = "No") ∧
    (∀ r : Row, r.get "First Pain Score" = Cell.str "Sev Pain" →
      r.get "A1_to_PS2_Mins" = Cell.num 16 → bestPracticeRow r = "No") ∧
    (∀ r r' : Row,
      r.get "First Pain Score" = r'.get "First Pain Score" →
      r.get "Time_to_PS1_Mins" = r'.get "Time_to_PS1_Mins" →
      r.get "Time_to_A1_Mins" = r'.get "Time_to_A1_Mins" →
      r.get "A1_to_PS2_Mins" = r'.get "A1_to_PS2_Mins" →
      bestPracticeRow r = bestPracticeRow r') := by
  refine ⟨?_, ?_, ?_, ?_, ?_⟩
  · intro r
    have hif : bestPracticeRow r = "Yes" ↔
        (cellLE (r.get "Time_to_PS1_Mins") 15 && (condition_mod r || condition_sev r)) = true := by
      simp only [bestPracticeRow]
      split <;> simp_all
    rw [hif]
    simp only [condition_mod, condition_sev, Bool.and_eq_true, Bool.or_eq_true,
      beq_iff_eq, cellLE_iff, cellGT_iff, hasNumLE, and_assoc, Ioc_split]
  · intro r
    simp only [bestPracticeRow]
    split
    · exact Or.inl rfl
    · exact Or.inr rfl
  · intro r h
    simp [bestPracticeRow, condition_mod, condition_sev, h, cellGT]
  · intro r h1 h2
    have hm : condition_mod r = false := by
      simp [condition_mod, h1]
    have hs : condition_sev r = false := by
      have h16 : ¬((16 : ℚ) ≤ 15) := by norm_num
      simp [condition_sev, h2, cellLE, h16]
    simp [bestPracticeRow, hm, hs]
  · intro r r' h1 h2 h3 h4
    simp only [bestPracticeRow, condition_mod, condition_sev, h1, h2, h3, h4]

/-- Concrete compliant record from the spec's example (Sev Pain, PS1 = 10,
A1 = 15, A1→PS2 = 15). -/
def bpRowSevYes : Row :=
  ⟨[("First Pain Score", .str "Sev Pain"), ("Time_to_PS1_Mins", .num 10),
    ("Time_to_A1_Mins", .num 15), ("A1_to_PS2_Mins", .num 15)]⟩

/-- Same record with `A1_to_PS2_Mins = 0`. -/
def bpRowSevZero : Row :=
  ⟨[("First Pain Score", .str "Sev Pain"), ("Time_to_PS1_Mins", .num 10),
    ("Time_to_A1_Mins", .num 15), ("A1_to_PS2_Mins", .num 0)]⟩

/-- Same record with `A1_to_PS2_Mins = 16`. -/
def bpRowSev16 : Row :=
  ⟨[("First Pain Score", .str "Sev Pain"), ("Time_to_PS1_Mins", .num 10),
    ("Time_to_A1_Mins", .num 15), ("A1_to_PS2_Mins", .num 16)]⟩

/-- Witness for C1 at the spec's concrete compliance examples. -/
theorem C1_best_practice_rule_witness :
    bestPracticeRow bpRowSevYes = "Yes" ∧
    bestPracticeRow bpRowSevZero = "No" ∧
    bestPracticeRow bpRowSev16 = "No" := by
  refine ⟨?_, ?_, ?_⟩
  · exact (C1_best_practice_rule.1 bpRowSevYes).mpr
      ⟨⟨10, by decide, by norm_num⟩,
        Or.inr ⟨by decide, ⟨15, by decide, by norm_num⟩, ⟨15, by decide, by norm_num, by norm_num⟩⟩⟩
  · exact C1_best_practice_rule.2.2.1 bpRowSevZero (by decide)
  · exact C1_best_practice_rule.2.2.2.1 bpRowSev16 (by decide) (by decide)

/-! ### C5: age bucketing -/

/-- A one-record table whose Age is 150. -/
def ageT150 : Table :=
  { cols := ["Age"], rows := [⟨[("Age", Cell.num 150)]⟩] }

/-- **C5, counterexample.**  The claim says Age = 150 yields Age_Group "95+";
with `pd.cut(..., right=False)` the last band is [95, 150), so 150 is
unbucketed: the code yields a null Age_Group. -/
theorem C5_counterexample :
    (create_age_groups ageT150).map (fun t => t.rows.map (fun r => r.get "Age_Group")) =
      some [Cell.null] ∧ Cell.null ≠ Cell.str "95+" := by
  constructor
  · rfl
  · decide

/-- **C5, amended.**  Age bucketing uses right-open bands with inclusive lower
bounds over [0,15,25,35,45,55,65,75,85,95,150): Age = 15 falls in "15-25"
(not "0-15"), Age = 95 in "95+", and Age = -1, null, non-numeric — and also
Age = 150, which lies outside the right-open final band [95, 150) — yield a
null Age_Group. -/
theorem C5_age_bucketing :
    (∀ t out, create_age_groups t = some out →
      ∀ r ∈ out.rows, r.get "Age_Group" = cutCell (r.get "Age")) ∧
    cutCell (Cell.num 15) = Cell.str "15-25" ∧
    cutCell (Cell.num 95) = Cell.str "95+" ∧
    cutCell (Cell.num 150) = Cell.null ∧
    cutCell (Cell.num (-1)) = Cell.null ∧
    cutCell Cell.null = Cell.null ∧
    (∀ s, parseNumQ s = none → cutCell (Cell.toNumeric (Cell.str s)) = Cell.null) ∧
    (∀ q : ℚ, 0 ≤ q → q < 15 → cutCell (Cell.num q) = Cell.str "0-15") ∧
    (∀ q : ℚ, 15 ≤ q → q < 25 → cutCell (Cell.num q) = Cell.str "15-25") ∧
    (∀ q : ℚ, 95 ≤ q → q < 150 → cutCell (Cell.num q) = Cell.str "95+") ∧
    (∀ q : ℚ, q < 0 → cutCell (Cell.num q) = Cell.null) ∧
    (∀ q : ℚ, 150 ≤ q → cutCell (Cell.num q) = Cell.null) := by
  refine ⟨?_, by decide, by decide, by decide, by decide, rfl, ?_, ?_, ?_, ?_, ?_, ?_⟩
  · intro t out h r hr
    unfold create_age_groups at h
    split at h
    · rw [Option.some_inj] at h
      subst h
      simp only [Table.addCol, Table.mapCol, List.map_map, List.mem_map] at hr
      obtain ⟨r0, _, rfl⟩ := hr
      simp
    · exact absurd h (by simp)
  · intro s hs
    simp [Cell.toNumeric, hs, cutCell]
  · intro q h0 h15
    simp only [cutCell, cutFind, ageBins, ageLabels]
    rw [if_pos ⟨h0, h15⟩]
  · intro q h15 h25
    simp only [cutCell, cutFind, ageBins, ageLabels]
    rw [if_neg (fun h => absurd h.2 (not_lt.mpr h15)), if_pos ⟨h15, h25⟩]
  · intro q h95 h150
    simp only [cutCell, cutFind, ageBins, ageLabels]
    rw [if_neg (fun h => absurd h.2 (not_lt.mpr (by linarith))),
      if_neg (fun h => absurd h.2 (not_lt.mpr (by linarith))),
      if_neg (fun h => absurd h.2 (not_lt.mpr (by linarith))),
      if_neg (fun h => absurd h.2 (not_lt.mpr (by linarith))),
      if_neg (fun h => absurd h.2 (not_lt.mpr (by linarith))),
      if_neg (fun h => absurd h.2 (not_lt.mpr (by linarith))),
      if_neg (fun h => absurd h.2 (not_lt.mpr (by linarith))),
      if_neg (fun h => absurd h.2 (not_lt.mpr (by linarith))),
      if_neg (fun h => absurd h.2 (not_lt.mpr (by linarith))),
      if_pos ⟨h95, h150⟩]
  · intro q hneg
    simp only [cutCell, cutFind, ageBins, ageLabels]
    rw [if_neg (fun h => absurd h.1 (not_le.mpr (by linarith))),
      if_neg (fun h => absurd h.1 (not_le.mpr (by linarith))),
      if_neg (fun h => absurd h.1 (not_le.mpr (by linarith))),
      if_neg (fun h => absurd h.1 (not_le.mpr (by linarith))),
      if_neg (fun h => absurd h.1 (not_le.mpr (by linarith))),
      if_neg (fun h => absurd h.1 (not_le.mpr (by linarith))),
      if_neg (fun h => absurd h.1 (not_le.mpr (by linarith))),
      if_neg (fun h => absurd h.1 (not_le.mpr (by linarith))),
      if_neg (fun h => absurd h.1 (not_le.mpr (by linarith))),
      if_neg (fun h => absurd h.1 (not_le.mpr (by linarith)))]
  · intro q h150
    simp only [cutCell, cutFind, ageBins, ageLabels]
    rw [if_neg (fun h => absurd h.2 (not_lt.mpr (by linarith))),
      if_neg (fun h => absurd h.2 (not_lt.mpr (by linarith))),
      if_neg (fun h => absurd h.2 (not_lt.mpr (by linarith))),
      if_neg (fun h => absurd h.2 (not_lt.mpr (by linarith))),
      if_neg (fun h => absurd h.2 (not_lt.mpr (by linarith))),
      if_neg (fun h => absurd h.2 (not_lt.mpr (by linarith))),
      if_neg (fun h => absurd h.2 (not_lt.mpr (by linarith))),
      if_neg (fun h => absurd h.2 (not_lt.mpr (by linarith))),
      if_neg (fun h => absurd h.2 (not_lt.mpr (by linarith))),
      if_neg (fun h => absurd h.2 (not_lt.mpr (by linarith)))]

/-- A one-record table whose Age is 15. -/
def ageT15 : Table :=
  { cols := ["Age"], rows := [⟨[("Age", Cell.num 15)]⟩] }

/-- The table `create_age_groups` produces from `ageT15`. -/
def outAge15Row : Row :=
  ⟨[("Age_Group", Cell.str "15-25"), ("Age", Cell.num 15), ("Age", Cell.num 15)]⟩

/-- The output table for `ageT15`. -/
def outAge15 : Table :=
  { cols := ["Age", "Age_Group"], rows := [outAge15Row] }

/-- Witness for C5 at concrete inputs. -/
theorem C5_age_bucketing_witness :
    outAge15Row.get "Age_Group" = cutCell (outAge15Row.get "Age") ∧
    cutCell (Cell.num 7) = Cell.str "0-15" ∧
    cutCell (Cell.num 1000) = Cell.null :=
  ⟨C5_age_bucketing.1 ageT15 outAge15 (by decide) outAge15Row (List.mem_singleton.mpr rfl),
   C5_age_bucketing.2.2.2.2.2.2.2.1 7 (by norm_num) (by norm_num),
   C5_age_bucketing.2.2.2.2.2.2.2.2.2.2.2 1000 (by norm_num)⟩

/-! ### C3: missing Postcode column -/

/-- A non-empty ingest table with no Postcode column. -/
def noPostcodeT : Table :=
  { cols := ["Age", "Gender"],
    rows := [⟨[("Age", Cell.num 5), ("Gender", Cell.str "F")]⟩] }

/-- **C3, counterexample.**  On a non-empty table lacking the Postcode column
the pipeline hard-fails: `create_join_keys` raises a `KeyError` that
`process_monthly_data`'s blanket handler turns into `None` — it does not
return an enriched table with `IMD_Quintile = "Unknown"`. -/
theorem C3_counterexample :
    noPostcodeT.rows ≠ [] ∧ "Postcode" ∉ noPostcodeT.cols ∧
      process_monthly_data noPostcodeT none = none := by
  refine ⟨by decide, by decide, by decide⟩

/-- **C3, amended.**  For every input whose cleaned table lacks the Postcode
column, `process_monthly_data` returns `None` (pipeline hard failure),
regardless of the reference data; the graceful `IMD_Quintile = "Unknown"`
degradation applies only to absent reference data, not to an absent Postcode
column. -/
theorem C3_missing_postcode_fails (raw : Table) (imd : Option Table)
    (h : "Postcode" ∉ (load_and_clean_pain_data raw).cols) :
    process_monthly_data raw imd = none := by
  have hjk : create_join_keys (load_and_clean_pain_data raw) = none := by
    unfold create_join_keys
    rw [if_neg h]
  simp [process_monthly_data, hjk]

/-- Witness for C3 at a concrete input (with empty reference data supplied). -/
theorem C3_missing_postcode_fails_witness :
    ("Postcode" ∉ (load_and_clean_pain_data noPostcodeT).cols) ∧
      process_monthly_data noPostcodeT (some { cols := [], rows := [] }) = none :=
  ⟨by decide,
   C3_missing_postcode_fails noPostcodeT (some { cols := [], rows := [] }) (by decide)⟩

/-! ### C10: missing Arrival DTTM column -/

/-- **C10, counterexample.**  The claim says every input lacking
`'Arrival DTTM'` still yields a table; but an input lacking (also) the
Postcode column yields `None`, so the claim's universal "not a failure" part
is false as stated. -/
theorem C10_counterexample :
    "Arrival DTTM" ∉ noPostcodeT.cols ∧
      process_monthly_data noPostcodeT none = none := by
  refine ⟨by decide, by decide⟩

/-- **C10, amended.**  For every input whose cleaned table contains Postcode
but lacks `'Arrival DTTM'` (and whose enrichment step succeeds),
`process_monthly_data` returns a plain table — exactly the enriched,
date-converted table, with no derivation stage run — so none of Report_Month,
First_Score_Num, Second_Score_Num, Pain_Score_Improvement, Age_Group,
Best_Practice is added: each is present in the output only if the input
itself already carried a column of that name. -/
theorem C10_no_arrival_skips_derivations (raw : Table) (imd : Option Table)
    (t1 t2 : Table)
    (h1 : create_join_keys (load_and_clean_pain_data raw) = some t1)
    (h2 : merge_with_imd_data t1 imd = some t2)
    (hA : "Arrival DTTM" ∉ (load_and_clean_pain_data raw).cols) :
    process_monthly_data raw imd = some (ProcOutput.df (convert_date_columns t2 dateColsList)) ∧
    ∀ c ∈ ["Report_Month", "First_Score_Num", "Second_Score_Num",
           "Pain_Score_Improvement", "Age_Group", "Best_Practice"],
      (c ∈ (convert_date_columns t2 dateColsList).cols ↔
        c ∈ (load_and_clean_pain_data raw).cols) := by
  have key : ∀ c : String, c ≠ "Join_Key" → c ≠ "IMD_Quintile" → c ≠ "IMD_Decile" →
      c ≠ "Postcode" → c ≠ "Postcode_Gov" →
      (c ∈ (convert_date_columns t2 dateColsList).cols ↔
        c ∈ (load_and_clean_pain_data raw).cols) := by
    intro c hjk hq hd hp hg
    rw [convert_date_columns_cols, merge_mem_cols t1 imd t2 h2 c hq hd hp hjk hg,
      create_join_keys_mem_cols _ _ h1 c hjk]
  have hA2 : "Arrival DTTM" ∉ (convert_date_columns t2 dateColsList).cols := by
    rw [key "Arrival DTTM" (by decide) (by decide) (by decide) (by decide) (by decide)]
    exact hA
  constructor
  · simp only [process_monthly_data, h1, h2, Option.bind_eq_bind, Option.some_bind]
    rw [if_neg hA2]
    rfl
  · intro c hc
    fin_cases hc <;>
      exact key _ (by decide) (by decide) (by decide) (by decide) (by decide)

/-- A minimal clean input with a Postcode column and no Arrival column. -/
def c10raw : Table :=
  { cols := ["Postcode"], rows := [⟨[("Postcode", Cell.str "AB1 2CD")]⟩] }

/-- The join-keyed form of `c10raw`. -/
def c10t1 : Table :=
  { cols := ["Postcode", "Join_Key"],
    rows := [⟨[("Join_Key", Cell.str "AB12CD"), ("Postcode", Cell.str "AB1 2CD")]⟩] }

/-- The enriched form of `c10raw` with no reference data. -/
def c10t2 : Table :=
  { cols := ["Postcode", "Join_Key", "IMD_Quintile"],
    rows := [⟨[("IMD_Quintile", Cell.str "Unknown"), ("Join_Key", Cell.str "AB12CD"),
               ("Postcode", Cell.str "AB1 2CD")]⟩] }

/-- Witness for C10 at a concrete input. -/
theorem C10_no_arrival_skips_derivations_witness :
    process_monthly_data c10raw none =
      some (ProcOutput.df (convert_date_columns c10t2 dateColsList)) ∧
    ("Best_Practice" ∈ (convert_date_columns c10t2 dateColsList).cols ↔
      "Best_Practice" ∈ (load_and_clean_pain_data c10raw).cols) :=
  ⟨(C10_no_arrival_skips_derivations c10raw none c10t1 c10t2
      (by decide) (by decide) (by decide)).1,
   (C10_no_arrival_skips_derivations c10raw none c10t1 c10t2
      (by decide) (by decide) (by decide)).2 "Best_Practice" (by simp)⟩

/-! ### C7: scaffolding columns after enrichment -/

/-- A join-keyed patient table for the enrichment claims. -/
def c7pat : Table :=
  { cols := ["Postcode", "Join_Key"],
    rows := [⟨[("Join_Key", Cell.str "AB12CD"), ("Postcode", Cell.str "AB1 2CD")]⟩] }

/-- A one-entry reference table matching `c7pat`. -/
def c7imd : Table :=
  { cols := ["Join_Key", "IMD_Decile"],
    rows := [⟨[("Join_Key", Cell.str "AB12CD"), ("IMD_Decile", Cell.num 3)]⟩] }

/-- **C7, counterexample.**  After the reference-data merge the output still
contains the `IMD_Decile` column (only Postcode/Join_Key/Postcode_Gov are
dropped), and in the no-reference branch nothing at all is dropped, so
`Postcode` survives — both contradicting the claim. -/
theorem C7_counterexample :
    (merge_with_imd_data c7pat (some c7imd)).map
        (fun t => t.cols.contains "IMD_Decile") = some true ∧
    (merge_with_imd_data c7pat none).map
        (fun t => t.cols.contains "Postcode") = some true := by
  refine ⟨by decide, by decide⟩

/-- **C7, amended.**  When reference data is present and non-empty, the
enriched output contains `IMD_Quintile` and none of `Postcode`, `Join_Key`,
`Postcode_Gov` — but it retains `IMD_Decile`.  When reference data is absent,
only `IMD_Quintile` is added and the scaffolding columns (`Postcode`,
`Join_Key`) are retained. -/
theorem C7_scaffolding_columns (t im t2 : Table)
    (hne : (im.rows.isEmpty || im.cols.isEmpty) = false)
    (h : merge_with_imd_data t (some im) = some t2) :
    ("IMD_Quintile" ∈ t2.cols ∧ "Postcode" ∉ t2.cols ∧ "Join_Key" ∉ t2.cols ∧
      "Postcode_Gov" ∉ t2.cols ∧ "IMD_Decile" ∈ t2.cols) ∧
    (∀ u : Table, merge_with_imd_data u none =
      some (u.addCol "IMD_Quintile" (fun _ => Cell.str "Unknown"))) ∧
    (∀ u u2 : Table, merge_with_imd_data u none = some u2 →
      "IMD_Quintile" ∈ u2.cols ∧ ("Postcode" ∈ u.cols → "Postcode" ∈ u2.cols) ∧
      ("Join_Key" ∈ u.cols → "Join_Key" ∈ u2.cols)) := by
  refine ⟨?_, fun u => rfl, ?_⟩
  · have h' : (if (im.rows.isEmpty || im.cols.isEmpty) = true
        then some (t.addCol "IMD_Quintile" (fun _ => Cell.str "Unknown"))
        else Option.map (fun u => u.dropCols ["Postcode", "Join_Key", "Postcode_Gov"])
          (applyQuintile (leftMergeIMD t im))) = some t2 := h
    rw [if_neg (by simp [hne])] at h'
    cases hq2 : applyQuintile (leftMergeIMD t im) <;> rw [hq2] at h'
    · exact absurd h' (by simp)
    · rename_i tq
      have h'' : some (tq.dropCols ["Postcode", "Join_Key", "Postcode_Gov"]) = some t2 := h'
      rw [Option.some_inj] at h''
      subst h''
      have hcols := (applyQuintile_eq _ _ hq2).2
      have hquin : "IMD_Quintile" ∈ tq.cols := by
        rw [hcols]
        split
        · assumption
        · simp
      have hdec : "IMD_Decile" ∈ tq.cols := by
        rw [hcols]
        have : "IMD_Decile" ∈ (leftMergeIMD t im).cols :=
          (mem_cols_leftMergeIMD t im _).mpr (Or.inr rfl)
        split
        · exact this
        · simp [this]
      refine ⟨?_, ?_, ?_, ?_, ?_⟩ <;> rw [Table.mem_cols_dropCols]
      · simp [hquin]
      · simp
      · simp
      · simp
      · simp [hdec]
  · intro u u2 hu
    have hu' : some (u.addCol "IMD_Quintile" (fun _ => Cell.str "Unknown")) = some u2 := hu
    rw [Option.some_inj] at hu'
    subst hu'
    refine ⟨?_, ?_, ?_⟩ <;> rw [Table.mem_cols_addCol]
    · exact Or.inr rfl
    · exact Or.inl
    · exact Or.inl

/-- The enrichment output for `c7pat` with `c7imd`. -/
def c7out : Table :=
  { cols := ["IMD_Decile", "IMD_Quintile"],
    rows := [⟨[("IMD_Quintile", Cell.str "2"), ("IMD_Decile", Cell.num 3)]⟩] }

/-- Witness for C7 at concrete tables. -/
theorem C7_scaffolding_columns_witness :
    ("IMD_Quintile" ∈ c7out.cols ∧ "Postcode" ∉ c7out.cols ∧ "Join_Key" ∉ c7out.cols ∧
      "Postcode_Gov" ∉ c7out.cols ∧ "IMD_Decile" ∈ c7out.cols) :=
  (C7_scaffolding_columns c7pat c7imd c7out (by decide) (by decide)).1

/-! ### C4: left-join row multiplication -/

/-- A one-row join-keyed patient table. -/
def c4pat : Table :=
  { cols := ["Join_Key"], rows := [⟨[("Join_Key", Cell.str "K1")]⟩] }

/-- A reference table with two entries sharing one Join_Key. -/
def c4imdDup : Table :=
  { cols := ["Join_Key", "IMD_Decile"],
    rows := [⟨[("Join_Key", Cell.str "K1"), ("IMD_Decile", Cell.num 1)]⟩,
             ⟨[("Join_Key", Cell.str "K1"), ("IMD_Decile", Cell.num 9)]⟩] }

/-- **C4, counterexample.**  With a duplicated reference Join_Key, a single
patient row produces two output rows: the pandas left merge emits one row per
matching reference entry and performs no first-match deduplication. -/
theorem C4_counterexample :
    c4pat.rows.length = 1 ∧
    (merge_with_imd_data c4pat (some c4imdDup)).map (fun t => t.rows.length) = some 2 := by
  refine ⟨rfl, by decide⟩

theorem filter_key_length_le_one (l : List Row) (v : Cell)
    (hnodup : (l.map (fun m => m.get "Join_Key")).Nodup) :
    (l.filter (fun m => m.get "Join_Key" == v)).length ≤ 1 := by
  induction l with
  | nil => simp
  | cons m ms ih =>
    simp only [List.map_cons, List.nodup_cons] at hnodup
    obtain ⟨hnot, hnd⟩ := hnodup
    by_cases hm : (m.get "Join_Key" == v) = true
    · have hrest : ms.filter (fun m2 => m2.get "Join_Key" == v) = [] := by
        rw [List.filter_eq_nil_iff]
        intro m2 hm2 hpm2
        have h1 : m.get "Join_Key" = v := by simpa using hm
        have h2 : m2.get "Join_Key" = v := by simpa using hpm2
        exact hnot (List.mem_map.mpr ⟨m2, hm2, by rw [h2, h1]⟩)
      simp [List.filter_cons, hm, hrest]
    · simp only [List.filter_cons, hm, if_false]
      exact ih hnd

theorem mergeRows_length_one (r : Row) (ref : List Row)
    (hle : (ref.filter (fun m => m.get "Join_Key" == r.get "Join_Key")).length ≤ 1) :
    (mergeRows r ref).length = 1 := by
  unfold mergeRows
  cases hf : ref.filter (fun m => m.get "Join_Key" == r.get "Join_Key") with
  | nil => rfl
  | cons m rest =>
    rw [hf] at hle
    simp only [List.length_cons] at hle
    have : rest = [] := by
      cases rest with
      | nil => rfl
      | cons a b => simp at hle
    subst this
    simp

theorem sum_map_one (l : List Row) (f : Row → Nat) (h : ∀ x ∈ l, f x = 1) :
    (l.map f).sum = l.length := by
  induction l with
  | nil => rfl
  | cons a tl ih =>
    simp only [List.map_cons, List.sum_cons, List.length_cons, h a (by simp),
      ih (fun x hx => h x (by simp [hx]))]
    omega

/-- **C4, amended.**  The left join emits one output row per (patient row,
matching reference entry) pair, plus a null-decile row for unmatched
patients: the row count is preserved exactly when every Join_Key occurs at
most once in the reference table (then each matched row's decile comes from
its unique — hence first — match); duplicate reference keys multiply rows. -/
theorem C4_left_join_row_count (t im t2 : Table)
    (hnodup : (im.rows.map (fun m => m.get "Join_Key")).Nodup)
    (h : merge_with_imd_data t (some im) = some t2) :
    t2.rows.length = t.rows.length ∧
    (∀ r : Row, ∀ m : Row,
      im.rows.filter (fun x => x.get "Join_Key" == r.get "Join_Key") = [m] →
      mergeRows r im.rows = [r.set "IMD_Decile" (m.get "IMD_Decile")]) ∧
    (∀ r : Row,
      im.rows.filter (fun x => x.get "Join_Key" == r.get "Join_Key") = [] →
      mergeRows r im.rows = [r.set "IMD_Decile" Cell.null]) := by
  refine ⟨?_, ?_, ?_⟩
  · have h' : (if (im.rows.isEmpty || im.cols.isEmpty) = true
        then some (t.addCol "IMD_Quintile" (fun _ => Cell.str "Unknown"))
        else Option.map (fun u => u.dropCols ["Postcode", "Join_Key", "Postcode_Gov"])
          (applyQuintile (leftMergeIMD t im))) = some t2 := h
    split at h'
    · rw [Option.some_inj] at h'
      subst h'
      simp [Table.addCol]
    · cases hq2 : applyQuintile (leftMergeIMD t im) <;> rw [hq2] at h'
      · exact absurd h' (by simp)
      · rename_i tq
        have h'' : some (tq.dropCols ["Postcode", "Join_Key", "Postcode_Gov"]) = some t2 := h'
        rw [Option.some_inj] at h''
        subst h''
        obtain ⟨⟨rs, hrs, hrows⟩, _⟩ := applyQuintile_eq _ _ hq2
        have hlen1 : rs.length = (leftMergeIMD t im).rows.length := optRows_length _ _ _ hrs
        have hlen2 : (leftMergeIMD t im).rows.length = t.rows.length := by
          simp only [leftMergeIMD, List.length_flatten, List.map_map]
          exact sum_map_one t.rows _ (fun r _ =>
            mergeRows_length_one r im.rows
              (filter_key_length_le_one im.rows _ hnodup))
        simp [Table.dropCols, hrows, hlen1, hlen2]
  · intro r m hf
    unfold mergeRows
    rw [hf]
    rfl
  · intro r hf
    unfold mergeRows
    rw [hf]

/-- A two-row patient table and a no-duplicate reference table. -/
def c4pat2 : Table :=
  { cols := ["Join_Key"],
    rows := [⟨[("Join_Key", Cell.str "K1")]⟩, ⟨[("Join_Key", Cell.str "K2")]⟩] }

/-- A reference table whose keys are distinct. -/
def c4imdNd : Table :=
  { cols := ["Join_Key", "IMD_Decile"],
    rows := [⟨[("Join_Key", Cell.str "K1"), ("IMD_Decile", Cell.num 1)]⟩,
             ⟨[("Join_Key", Cell.str "K3"), ("IMD_Decile", Cell.num 9)]⟩] }

/-- The merge output for `c4pat2` with `c4imdNd`. -/
def c4out2 : Table :=
  { cols := ["IMD_Decile", "IMD_Quintile"],
    rows := [⟨[("IMD_Quintile", Cell.str "1 - Most Deprived"), ("IMD_Decile", Cell.num 1)]⟩,
             ⟨[("IMD_Quintile", Cell.str "Unknown"), ("IMD_Decile", Cell.null)]⟩] }

/-- Witness for C4 at concrete tables with distinct reference keys. -/
theorem C4_left_join_row_count_witness :
    c4out2.rows.length = c4pat2.rows.length :=
  (C4_left_join_row_count c4pat2 c4imdNd c4out2 (by decide) (by decide)).1

/-! ### C8: quintile mapping and round-trip -/

/-- **C8.**  `IMD_Quintile` is determined from `IMD_Decile` by: decile ≤ 2 →
"1 - Most Deprived"; ≤ 4 → "2"; ≤ 6 → "3"; ≤ 8 → "4"; above 8 (9–10) →
"5 - Least Deprived"; null → "Unknown"; and whenever a reference entry's
normalized postcode equals a patient record's normalized postcode
(uppercased, spaces removed), that patient's enriched row takes its
`IMD_Quintile` from a matching entry's decile — never "Unknown" for a
numeric decile. -/
theorem C8_quintile_mapping :
    (∀ d : ℚ, d ≤ 2 → map_quintile (Cell.num d) = some "1 - Most Deprived") ∧
    (∀ d : ℚ, 2 < d → d ≤ 4 → map_quintile (Cell.num d) = some "2") ∧
    (∀ d : ℚ, 4 < d → d ≤ 6 → map_quintile (Cell.num d) = some "3") ∧
    (∀ d : ℚ, 6 < d → d ≤ 8 → map_quintile (Cell.num d) = some "4") ∧
    (∀ d : ℚ, 8 < d → map_quintile (Cell.num d) = some "5 - Least Deprived") ∧
    map_quintile Cell.null = some "Unknown" ∧
    (∀ p pg : String, normKey p = normKey pg →
      ∀ (t im t2 : Table) (r m : Row),
        im.cols ≠ [] →
        r ∈ t.rows → r.get "Join_Key" = Cell.str (normKey p) →
        m ∈ im.rows → m.get "Join_Key" = Cell.str (normKey pg) →
        (∀ m2 ∈ im.rows, m2.get "Join_Key" = r.get "Join_Key" →
          ∃ d : ℚ, m2.get "IMD_Decile" = Cell.num d) →
        merge_with_imd_data t (some im) = some t2 →
        ∃ r' ∈ t2.rows, ∃ d : ℚ, ∃ q : String, ∃ m2 ∈ im.rows,
          m2.get "Join_Key" = r.get "Join_Key" ∧
          m2.get "IMD_Decile" = Cell.num d ∧
          map_quintile (Cell.num d) = some q ∧
          r'.get "IMD_Quintile" = Cell.str q ∧ q ≠ "Unknown") := by
  refine ⟨?_, ?_, ?_, ?_, ?_, rfl, ?_⟩
  · intro d h
    simp [map_quintile, h]
  · intro d h1 h2
    simp [map_quintile, not_le.mpr h1, h2]
  · intro d h1 h2
    simp [map_quintile, not_le.mpr (show (2:ℚ) < d by linarith),
      not_le.mpr h1, h2]
  · intro d h1 h2
    simp [map_quintile, not_le.mpr (show (2:ℚ) < d by linarith),
      not_le.mpr (show (4:ℚ) < d by linarith), not_le.mpr h1, h2]
  · intro d h1
    simp [map_quintile, not_le.mpr (show (2:ℚ) < d by linarith),
      not_le.mpr (show (4:ℚ) < d by linarith),
      not_le.mpr (show (6:ℚ) < d by linarith), not_le.mpr h1]
  · intro p pg hpq t im t2 r m hcols hr hkey hm hmkey hnum h
    have hmk : m.get "Join_Key" = r.get "Join_Key" := by rw [hmkey, hkey, hpq]
    have hrows : im.rows ≠ [] := by
      intro hnil
      rw [hnil] at hm
      exact absurd hm (by simp)
    have hne1 : im.rows.isEmpty = false := by
      cases him : im.rows with
      | nil => exact absurd him hrows
      | cons a l => rfl
    have hne2 : im.cols.isEmpty = false := by
      cases him : im.cols with
      | nil => exact absurd him hcols
      | cons a l => rfl
    have h' : Option.map (fun u => u.dropCols ["Postcode", "Join_Key", "Postcode_Gov"])
        (applyQuintile (leftMergeIMD t im)) = some t2 := by
      have h0 : (if (im.rows.isEmpty || im.cols.isEmpty) = true
          then some (t.addCol "IMD_Quintile" (fun _ => Cell.str "Unknown"))
          else Option.map (fun u => u.dropCols ["Postcode", "Join_Key", "Postcode_Gov"])
            (applyQuintile (leftMergeIMD t im))) = some t2 := h
      rwa [if_neg (by simp [hne1, hne2])] at h0
    cases hq2 : applyQuintile (leftMergeIMD t im) <;> rw [hq2] at h'
    · exact absurd h' (by simp)
    · rename_i tq
      have h'' : some (tq.dropCols ["Postcode", "Join_Key", "Postcode_Gov"]) = some t2 := h'
      rw [Option.some_inj] at h''
      subst h''
      obtain ⟨⟨rs, hrs, hrowseq⟩, _⟩ := applyQuintile_eq _ _ hq2
      have hmem_filter : m ∈ im.rows.filter (fun x => x.get "Join_Key" == r.get "Join_Key") :=
        List.mem_filter.mpr ⟨hm, by simp [hmk]⟩
      cases hf : im.rows.filter (fun x => x.get "Join_Key" == r.get "Join_Key") with
      | nil =>
        rw [hf] at hmem_filter
        exact absurd hmem_filter (by simp)
      | cons m0 rest =>
        have hm0f : m0 ∈ im.rows.filter (fun x => x.get "Join_Key" == r.get "Join_Key") := by
          rw [hf]
          simp
        obtain ⟨hm0mem, hm0beq⟩ := List.mem_filter.mp hm0f
        have hm0key : m0.get "Join_Key" = r.get "Join_Key" := by simpa using hm0beq
        obtain ⟨d, hd⟩ := hnum m0 hm0mem hm0key
        have hr1mem : r.set "IMD_Decile" (m0.get "IMD_Decile") ∈ mergeRows r im.rows := by
          unfold mergeRows
          rw [hf]
          exact List.mem_map_of_mem _ (by simp)
        have hr1merge : r.set "IMD_Decile" (m0.get "IMD_Decile") ∈ (leftMergeIMD t im).rows := by
          simp only [leftMergeIMD]
          exact List.mem_flatten.mpr
            ⟨mergeRows r im.rows, List.mem_map_of_mem _ hr, hr1mem⟩
        obtain ⟨r2, hr2mem, hfr⟩ := optRows_forall _ _ _ hrs _ hr1merge
        have hr1dec : (r.set "IMD_Decile" (m0.get "IMD_Decile")).get "IMD_Decile" =
            Cell.num d := by simp [hd]
        rw [hr1dec] at hfr
        obtain ⟨qv, hmq, hqv⟩ : ∃ qv, map_quintile (Cell.num d) = some qv ∧ qv ≠ "Unknown" := by
          simp only [map_quintile]
          split_ifs <;> exact ⟨_, rfl, by decide⟩
        rw [hmq] at hfr
        have hfr' : some ((r.set "IMD_Decile" (m0.get "IMD_Decile")).set "IMD_Quintile"
            (Cell.str qv)) = some r2 := hfr
        rw [Option.some_inj] at hfr'
        subst hfr'
        refine ⟨((r.set "IMD_Decile" (m0.get "IMD_Decile")).set "IMD_Quintile"
            (Cell.str qv)).dropCols ["Postcode", "Join_Key", "Postcode_Gov"],
          ?_, d, qv, m0, hm0mem, hm0key, hd, hmq, ?_, hqv⟩
        · simp only [Table.dropCols]
          rw [← hrowseq] at hr2mem
          exact List.mem_map_of_mem _ hr2mem
        · rw [Row.get_dropCols_not_mem _ _ _ (by decide)]
          simp

/-- A join-keyed patient row for the C8 round-trip. -/
def c8row : Row :=
  ⟨[("Join_Key", Cell.str "AB12CD"), ("Postcode", Cell.str "ab1 2cd")]⟩

/-- A one-row patient table. -/
def c8pat : Table :=
  { cols := ["Postcode", "Join_Key"], rows := [c8row] }

/-- A matching reference entry with decile 3. -/
def c8m : Row :=
  ⟨[("Join_Key", Cell.str "AB12CD"), ("IMD_Decile", Cell.num 3)]⟩

/-- A one-entry reference table. -/
def c8imd : Table :=
  { cols := ["Join_Key", "IMD_Decile"], rows := [c8m] }

/-- The enrichment output for `c8pat` with `c8imd`. -/
def c8out : Table :=
  { cols := ["IMD_Decile", "IMD_Quintile"],
    rows := [⟨[("IMD_Quintile", Cell.str "2"), ("IMD_Decile", Cell.num 3)]⟩] }

/-- Witness for C8 at a concrete matching postcode pair. -/
theorem C8_quintile_mapping_witness :
    (∃ r' ∈ c8out.rows, ∃ d : ℚ, ∃ q : String, ∃ m2 ∈ c8imd.rows,
      m2.get "Join_Key" = c8row.get "Join_Key" ∧
      m2.get "IMD_Decile" = Cell.num d ∧
      map_quintile (Cell.num d) = some q ∧
      r'.get "IMD_Quintile" = Cell.str q ∧ q ≠ "Unknown") ∧
    map_quintile (Cell.num 1) = some "1 - Most Deprived" :=
  ⟨C8_quintile_mapping.2.2.2.2.2.2 "ab1 2cd" "AB1 2CD" (by decide)
      c8pat c8imd c8out c8row c8m (by decide) (by decide) (by decide)
      (by decide) (by decide)
      (by
        intro m2 hm2 _
        have : m2 = c8m := by simpa [c8imd] using hm2
        subst this
        exact ⟨3, rfl⟩)
      (by decide),
   C8_quintile_mapping.1 1 (by norm_num)⟩

/-! ### C6: temporal derivation -/

theorem colValues_mapCol (t : Table) (c : String) (f : Cell → Cell) (c' : String) :
    colValues (t.mapCol c f) c' =
      if c' = c then (colValues t c).map f else colValues t c' := by
  by_cases h : c' = c <;>
    simp [colValues, Table.mapCol, List.map_map, Function.comp, Row.get_set, h]

theorem toDT_idem (x : Cell) : Cell.toDT (Cell.toDT x) = Cell.toDT x := by
  cases x <;> try rfl
  rename_i s
  simp only [Cell.toDT]
  cases parseDT s <;> rfl

theorem map_toDT_toDT (l : List Cell) :
    (l.map Cell.toDT).map Cell.toDT = l.map Cell.toDT := by
  rw [List.map_map]
  exact List.map_congr_left (fun a _ => toDT_idem a)

theorem colValues_convert (t : Table) (cs : List String) (c : String) :
    colValues (convert_date_columns t cs) c =
      if c ∈ cs ∧ c ∈ t.cols then (colValues t c).map Cell.toDT else colValues t c := by
  induction cs generalizing t with
  | nil => simp [convert_date_columns]
  | cons c0 cs ih =>
    have h1 : convert_date_columns t (c0 :: cs) =
        convert_date_columns (if c0 ∈ t.cols then t.mapCol c0 Cell.toDT else t) cs := by
      simp only [convert_date_columns, List.foldl_cons]
    rw [h1]
    by_cases hc0 : c0 ∈ t.cols
    · rw [if_pos hc0, ih]
      by_cases hcc : c = c0
      · subst hcc
        by_cases hccs : c ∈ cs
        · simp [Table.cols_mapCol, hccs, hc0, colValues_mapCol, map_toDT_toDT, toDT_idem]
        · simp [Table.cols_mapCol, hccs, hc0, colValues_mapCol]
      · simp only [Table.cols_mapCol, colValues_mapCol, if_neg hcc]
        by_cases hccs : c ∈ cs ∧ c ∈ t.cols
        · simp [hccs, List.mem_cons, hcc]
        · simp only [hccs, if_false]
          rw [if_neg]
          intro hand
          rcases hand with ⟨hmem, hcols⟩
          rcases List.mem_cons.mp hmem with rfl | hcs
          · exact hcc rfl
          · exact hccs ⟨hcs, hcols⟩
    · rw [if_neg hc0, ih]
      by_cases hcc : c = c0
      · subst hcc
        simp [hc0]
      · by_cases hccs : c ∈ cs ∧ c ∈ t.cols
        · simp [hccs, List.mem_cons, hcc]
        · simp only [hccs, if_false]
          rw [if_neg]
          intro hand
          rcases hand with ⟨hmem, hcols⟩
          rcases List.mem_cons.mp hmem with rfl | hcs
          · exact hcc rfl
          · exact hccs ⟨hcs, hcols⟩

/-- **C6.**  For each of the five timestamp columns present in the input,
conversion maps every cell through the fixed-format parser, with failures
becoming null (never raising); if any of the five is entirely absent, the
table passes through unchanged and the missing columns are reported; and when
all five are present, each `*_Mins` cell equals the signed minute difference
of its timestamp pair, with null operands producing null. -/
theorem C6_temporal_contract :
    (∀ (t : Table) (c : String), c ∈ dateColsList → c ∈ t.cols →
      colValues (convert_date_columns t dateColsList) c = (colValues t c).map Cell.toDT) ∧
    (∀ s, parseDT s = none → Cell.toDT (Cell.str s) = Cell.null) ∧
    (∀ s v, parseDT s = some v → Cell.toDT (Cell.str s) = Cell.dt v) ∧
    (∀ t : Table, (∃ c ∈ dateColsList, c ∉ t.cols) →
      calculate_time_intervals t =
        (t, dateColsList.filter (fun c => !(t.cols.contains c))) ∧
      dateColsList.filter (fun c => !(t.cols.contains c)) ≠ []) ∧
    (∀ t : Table, (∀ c ∈ dateColsList, c ∈ t.cols) →
      ∀ r ∈ (calculate_time_intervals t).1.rows,
        r.get "Time_to_Triage_Mins" =
          cellSubDT (r.get "Triage DTTM") (r.get "Arrival DTTM") ∧
        r.get "Time_to_PS1_Mins" =
          cellSubDT (r.get "First Pain Score DTTM") (r.get "Arrival DTTM") ∧
        r.get "Time_to_A1_Mins" =
          cellSubDT (r.get "First Analgesia DTTM") (r.get "Arrival DTTM") ∧
        r.get "Time_to_PS2_Mins" =
          cellSubDT (r.get "Second Pain Score DTTM") (r.get "Arrival DTTM") ∧
        r.get "A1_to_PS2_Mins" =
          cellSubDT (r.get "Second Pain Score DTTM") (r.get "First Analgesia DTTM") ∧
        r.get "PS2_to_A1_Mins" =
          cellSubDT (r.get "First Analgesia DTTM") (r.get "Second Pain Score DTTM")) ∧
    (∀ a b : Int, cellSubDT (Cell.dt a) (Cell.dt b) = Cell.num ((a - b : Int) : ℚ)) ∧
    (∀ x : Cell, cellSubDT Cell.null x = Cell.null ∧ cellSubDT x Cell.null = Cell.null) := by
  refine ⟨?_, ?_, ?_, ?_, ?_, fun a b => rfl, ?_⟩
  · intro t c h1 h2
    rw [colValues_convert, if_pos ⟨h1, h2⟩]
  · intro s hs
    simp [Cell.toDT, hs]
  · intro s v hs
    simp [Cell.toDT, hs]
  · intro t hex
    obtain ⟨c, hc, hnot⟩ := hex
    have hne : dateColsList.filter (fun c => !(t.cols.contains c)) ≠ [] := by
      have : c ∈ dateColsList.filter (fun c => !(t.cols.contains c)) :=
        List.mem_filter.mpr ⟨hc, by simp [hnot]⟩
      exact List.ne_nil_of_mem this
    refine ⟨?_, hne⟩
    unfold calculate_time_intervals
    rw [if_neg]
    intro hempty
    exact hne (List.isEmpty_iff.mp hempty)
  · intro t hall
    have hmiss : dateColsList.filter (fun c => !(t.cols.contains c)) = [] := by
      rw [List.filter_eq_nil_iff]
      intro c hc
      simp [hall c hc]
    intro r hr
    simp only [calculate_time_intervals, hmiss, List.isEmpty_nil, if_true,
      Table.addCol, List.map_map, List.mem_map, Function.comp] at hr
    obtain ⟨r0, _, rfl⟩ := hr
    refine ⟨?_, ?_, ?_, ?_, ?_, ?_⟩ <;> simp [Row.get_set]
  · intro x
    constructor
    · rfl
    · cases x <;> rfl

/-- A one-record table with all five timestamps (already datetime-typed,
minutes 0/12/5/10/20). -/
def ctimT : Table :=
  { cols := dateColsList,
    rows := [⟨[("Arrival DTTM", Cell.dt 0), ("Triage DTTM", Cell.dt 12),
               ("First Pain Score DTTM", Cell.dt 5), ("First Analgesia DTTM", Cell.dt 10),
               ("Second Pain Score DTTM", Cell.dt 20)]⟩] }

/-- The interval-augmented output row for `ctimT`. -/
def ctimRowOut : Row :=
  ⟨[("PS2_to_A1_Mins", Cell.num (-10)), ("A1_to_PS2_Mins", Cell.num 10),
    ("Time_to_PS2_Mins", Cell.num 20), ("Time_to_A1_Mins", Cell.num 10),
    ("Time_to_PS1_Mins", Cell.num 5), ("Time_to_Triage_Mins", Cell.num 12),
    ("Arrival DTTM", Cell.dt 0), ("Triage DTTM", Cell.dt 12),
    ("First Pain Score DTTM", Cell.dt 5), ("First Analgesia DTTM", Cell.dt 10),
    ("Second Pain Score DTTM", Cell.dt 20)]⟩

/-- Witness for C6: the spec's 12-minute example (Arrival 10:00, Triage
10:12) and a concrete interval row. -/
theorem C6_temporal_contract_witness :
    parseDT "05-Jan-24 10:00" = some 28407480 ∧
    parseDT "05-Jan-24 10:12" = some 28407492 ∧
    cellSubDT (Cell.dt 28407492) (Cell.dt 28407480) = Cell.num 12 ∧
    Cell.toDT (Cell.str "garbage") = Cell.null ∧
    ctimRowOut.get "Time_to_Triage_Mins" =
      cellSubDT (ctimRowOut.get "Triage DTTM") (ctimRowOut.get "Arrival DTTM") :=
  ⟨by decide, by decide,
   (C6_temporal_contract.2.2.2.2.2.1 28407492 28407480).trans (by decide),
   C6_temporal_contract.2.1 "garbage" (by decide),
   (C6_temporal_contract.2.2.2.2.1 ctimT (by decide) ctimRowOut (by decide)).1⟩

/-! ### C9: statistical dispatcher -/

/-- **C9.**  With the grouping and outcome columns present: fewer than 2
distinct non-null group values reports "insufficient groups" with no test
run; exactly 2 dispatches to Mann-Whitney U (called with scipy's default,
two-sided); more than 2 dispatches to Kruskal-Wallis; the significance flag
is true exactly when p < 0.05; and a raising test call is caught and
reported as the stats-error result rather than propagated. -/
theorem C9_stats_dispatcher
    (mwu : List Cell → List Cell → Option (ℚ × ℚ))
    (kru : List (List Cell) → Option (ℚ × ℚ))
    (t : Table) (g tc : String) (hg : g ∈ t.cols) (htc : tc ∈ t.cols) :
    ((statsGroups t g).length < 2 →
      calculate_stats mwu kru t g tc = StatsResult.insufficient) ∧
    (∀ s p : ℚ, (statsGroups t g).length = 2 →
      mwu ((statsGroupData t g tc).getD 0 []) ((statsGroupData t g tc).getD 1 []) =
        some (s, p) →
      calculate_stats mwu kru t g tc =
        StatsResult.ok "Mann-Whitney U" p (decide (p < 1/20))
          (if p < 1/20 then "Statistically Significant Difference"
           else "No Significant Difference")) ∧
    (∀ s p : ℚ, 2 < (statsGroups t g).length →
      kru (statsGroupData t g tc) = some (s, p) →
      calculate_stats mwu kru t g tc =
        StatsResult.ok "Kruskal-Wallis" p (decide (p < 1/20))
          (if p < 1/20 then "Statistically Significant Difference"
           else "No Significant Difference")) ∧
    (∀ test p sig msg, calculate_stats mwu kru t g tc = StatsResult.ok test p sig msg →
      (sig = true ↔ p < 1/20)) ∧
    ((statsGroups t g).length = 2 →
      mwu ((statsGroupData t g tc).getD 0 []) ((statsGroupData t g tc).getD 1 []) = none →
      calculate_stats mwu kru t g tc = StatsResult.err) ∧
    (2 < (statsGroups t g).length → kru (statsGroupData t g tc) = none →
      calculate_stats mwu kru t g tc = StatsResult.err) := by
  have hgc : t.cols.contains g = true := by simpa using hg
  have htcc : t.cols.contains tc = true := by simpa using htc
  have hred : calculate_stats mwu kru t g tc =
      (if (statsGroups t g).length < 2 then StatsResult.insufficient
       else
        match (if (statsGroups t g).length = 2 then
            (mwu ((statsGroupData t g tc).getD 0 [])
              ((statsGroupData t g tc).getD 1 [])).map (fun sp => ("Mann-Whitney U", sp.2))
          else (kru (statsGroupData t g tc)).map (fun sp => ("Kruskal-Wallis", sp.2))) with
        | none => StatsResult.err
        | some np =>
          StatsResult.ok np.1 np.2 (decide (np.2 < 1/20))
            (if np.2 < 1/20 then "Statistically Significant Difference"
             else "No Significant Difference")) := by
    simp only [calculate_stats, hgc, htcc, Bool.not_true, Bool.and_false, Bool.false_eq_true,
      if_false]
  refine ⟨?_, ?_, ?_, ?_, ?_, ?_⟩
  · intro h2
    rw [hred, if_pos h2]
  · intro s p hlen hm
    rw [hred, if_neg (by omega), if_pos hlen, hm]
    rfl
  · intro s p hlen hk
    rw [hred, if_neg (by omega), if_neg (by omega), hk]
    rfl
  · intro test p sig msg heq
    rw [hred] at heq
    split at heq
    · exact absurd heq (by simp)
    · split at heq
      · exact absurd heq (by simp)
      · rename_i np _
        simp only [StatsResult.ok.injEq] at heq
        obtain ⟨_, hp, hsig, _⟩ := heq
        subst hp
        subst hsig
        simp
  · intro hlen hm
    rw [hred, if_neg (by omega), if_pos hlen, hm]
    rfl
  · intro hlen hk
    rw [hred, if_neg (by omega), if_neg (by omega), hk]
    rfl

/-- A two-group table for the dispatcher. -/
def statT2 : Table :=
  { cols := ["G", "V"],
    rows := [⟨[("G", Cell.str "a"), ("V", Cell.num 1)]⟩,
             ⟨[("G", Cell.str "b"), ("V", Cell.num 2)]⟩] }

/-- A one-group table for the dispatcher. -/
def statT1 : Table :=
  { cols := ["G", "V"],
    rows := [⟨[("G", Cell.str "a"), ("V", Cell.num 1)]⟩] }

/-- A stand-in scipy `mannwhitneyu` returning statistic 0 and p-value 1/100. -/
def mwuW : List Cell → List Cell → Option (ℚ × ℚ) := fun _ _ => some (0, 1/100)

/-- A stand-in scipy `kruskal` that raises. -/
def kruW : List (List Cell) → Option (ℚ × ℚ) := fun _ => none

/-- Witness for C9 at concrete tables and test functions. -/
theorem C9_stats_dispatcher_witness :
    calculate_stats mwuW kruW statT2 "G" "V" =
      StatsResult.ok "Mann-Whitney U" (1/100) (decide ((1:ℚ)/100 < 1/20))
        (if (1:ℚ)/100 < 1/20 then "Statistically Significant Difference"
         else "No Significant Difference") ∧
    calculate_stats mwuW kruW statT1 "G" "V" = StatsResult.insufficient :=
  ⟨(C9_stats_dispatcher mwuW kruW statT2 "G" "V" (by decide) (by decide)).2.1
      0 (1/100) (by decide) rfl,
   (C9_stats_dispatcher mwuW kruW statT1 "G" "V" (by decide) (by decide)).1 (by decide)⟩

/-! ### C2: funnel structure, additivity and monotonicity -/

theorem bpYes_sev_implies (r : Row)
    (hsev : isSev r = true) (hyes : bestPracticeRow r = "Yes") :
    ps1le r = true ∧ a1le r = true := by
  unfold bestPracticeRow at hyes
  split at hyes
  · rename_i hcond
    rw [Bool.and_eq_true, Bool.or_eq_true] at hcond
    obtain ⟨hps1, hor⟩ := hcond
    refine ⟨hps1, ?_⟩
    rcases hor with hmod | hsevc
    · exfalso
      simp only [condition_mod, Bool.and_eq_true, beq_iff_eq] at hmod
      simp only [isSev, beq_iff_eq] at hsev
      rw [hsev] at hmod
      simpa using hmod.1.1.1
    · simp only [condition_sev, Bool.and_eq_true] at hsevc
      exact hsevc.1.1.2
  · exact absurd hyes (by simp)

theorem bpYes_mod_implies (r : Row)
    (hmod : isMod r = true) (hyes : bestPracticeRow r = "Yes") :
    ps1le r = true ∧ a1le r = true := by
  unfold bestPracticeRow at hyes
  split at hyes
  · rename_i hcond
    rw [Bool.and_eq_true, Bool.or_eq_true] at hcond
    obtain ⟨hps1, hor⟩ := hcond
    refine ⟨hps1, ?_⟩
    rcases hor with hmodc | hsevc
    · simp only [condition_mod, Bool.and_eq_true] at hmodc
      exact hmodc.1.1.2
    · exfalso
      simp only [condition_sev, Bool.and_eq_true, beq_iff_eq] at hsevc
      simp only [isMod, beq_iff_eq] at hmod
      rw [hmod] at hsevc
      simpa using hsevc.1.1.1
  · exact absurd hyes (by simp)

theorem bp_countP_mono (t : Table) (p q : Row → Bool)
    (h : ∀ r0 ∈ t.rows,
      p (r0.set "Best_Practice" (Cell.str (bestPracticeRow r0))) = true →
      q (r0.set "Best_Practice" (Cell.str (bestPracticeRow r0))) = true) :
    (bpTable t).rows.countP p ≤ (bpTable t).rows.countP q := by
  apply List.countP_mono_left
  intro a ha hp
  simp only [bpTable, Table.rows_addCol, List.mem_map] at ha
  obtain ⟨r0, hr0, rfl⟩ := ha
  exact h r0 hr0 hp

theorem isSev_set_bp (r : Row) (v : Cell) : isSev (r.set "Best_Practice" v) = isSev r := by
  simp [isSev, Row.get_set]

theorem isMod_set_bp (r : Row) (v : Cell) : isMod (r.set "Best_Practice" v) = isMod r := by
  simp [isMod, Row.get_set]

theorem ps1le_set_bp (r : Row) (v : Cell) : ps1le (r.set "Best_Practice" v) = ps1le r := by
  simp [ps1le, Row.get_set]

theorem a1le_set_bp (r : Row) (v : Cell) : a1le (r.set "Best_Practice" v) = a1le r := by
  simp [a1le, Row.get_set]

/-- A one-record table whose First Pain Score is neither "Sev Pain" nor
"Mod Pain" but whose PS1 time is within 15 minutes. -/
def funnelEx : Table :=
  { cols := bpCols,
    rows := [⟨[("First Pain Score", Cell.str "No Pain"), ("Time_to_PS1_Mins", Cell.num 10),
               ("Time_to_A1_Mins", Cell.num 10), ("A1_to_PS2_Mins", Cell.num 10)]⟩] }

/-- **C2, counterexample.**  The "PS1 ≤ 15" node counts 1 record, but its two
severity children (value-list entries 2 and 3, feeding nodes 3 and 4) count 0
each: a "No Pain" record within 15 minutes is in the parent yet in neither
child, so Level-2 additivity fails. -/
theorem C2_counterexample :
    (calculate_best_practice funnelEx).map
        (fun p => (p.2.value.getD 0 0, p.2.value.getD 2 0, p.2.value.getD 3 0)) =
      some (1, 0, 0) ∧ (0 : Int) + 0 ≠ 1 :=
  ⟨by decide, by decide⟩

/-- **C2, amended.**  The funnel has exactly 13 labeled nodes and 12 edges;
its counts are monotone (every node's count is ≤ its parent's and ≥ 0) and
additive at every parent except the "PS1 ≤ 15" node, whose severity children
sum to **at most** its count — records with pain labels other than
"Sev Pain"/"Mod Pain" fall out of the funnel at Level 2 (strictly less is
possible, see the counterexample). -/
theorem C2_funnel_structure (t : Table) (out : Table × Sankey)
    (h : calculate_best_practice t = some out) :
    out.2.labels.length = 13 ∧ out.2.source.length = 12 ∧
    out.2.target.length = 12 ∧ out.2.value.length = 12 ∧
    out.2.value = [cPS1 t, cTotal t - cPS1 t, cSevPS1 t, cModPS1 t,
      cSevPS1A1 t, cSevPS1 t - cSevPS1A1 t, cModPS1A1 t, cModPS1 t - cModPS1A1 t,
      cSevBP t, cSevPS1A1 t - cSevBP t, cModBP t, cModPS1A1 t - cModBP t] ∧
    (cPS1 t + (cTotal t - cPS1 t) = cTotal t ∧
     cSevPS1A1 t + (cSevPS1 t - cSevPS1A1 t) = cSevPS1 t ∧
     cModPS1A1 t + (cModPS1 t - cModPS1A1 t) = cModPS1 t ∧
     cSevBP t + (cSevPS1A1 t - cSevBP t) = cSevPS1A1 t ∧
     cModBP t + (cModPS1A1 t - cModBP t) = cModPS1A1 t) ∧
    cSevPS1 t + cModPS1 t ≤ cPS1 t ∧
    (cPS1 t ≤ cTotal t ∧ 0 ≤ cPS1 t ∧
     cTotal t - cPS1 t ≤ cTotal t ∧ 0 ≤ cTotal t - cPS1 t ∧
     cSevPS1 t ≤ cPS1 t ∧ cModPS1 t ≤ cPS1 t ∧ 0 ≤ cSevPS1 t ∧ 0 ≤ cModPS1 t ∧
     cSevPS1A1 t ≤ cSevPS1 t ∧ cModPS1A1 t ≤ cModPS1 t ∧
     0 ≤ cSevPS1A1 t ∧ 0 ≤ cModPS1A1 t ∧
     cSevPS1 t - cSevPS1A1 t ≤ cSevPS1 t ∧ cModPS1 t - cModPS1A1 t ≤ cModPS1 t ∧
     0 ≤ cSevPS1 t - cSevPS1A1 t ∧ 0 ≤ cModPS1 t - cModPS1A1 t ∧
     cSevBP t ≤ cSevPS1A1 t ∧ cModBP t ≤ cModPS1A1 t ∧
     0 ≤ cSevBP t ∧ 0 ≤ cModBP t ∧
     cSevPS1A1 t - cSevBP t ≤ cSevPS1A1 t ∧ cModPS1A1 t - cModBP t ≤ cModPS1A1 t ∧
     0 ≤ cSevPS1A1 t - cSevBP t ∧ 0 ≤ cModPS1A1 t - cModBP t) := by
  have hn0 : 0 ≤ cTotal t := Int.natCast_nonneg _
  have hn1 : 0 ≤ cPS1 t := Int.natCast_nonneg _
  have hn2 : 0 ≤ cSevPS1 t := Int.natCast_nonneg _
  have hn3 : 0 ≤ cModPS1 t := Int.natCast_nonneg _
  have hn4 : 0 ≤ cSevPS1A1 t := Int.natCast_nonneg _
  have hn5 : 0 ≤ cModPS1A1 t := Int.natCast_nonneg _
  have hn6 : 0 ≤ cSevBP t := Int.natCast_nonneg _
  have hn7 : 0 ≤ cModBP t := Int.natCast_nonneg _
  have hb1 : cPS1 t ≤ cTotal t := by
    unfold cPS1 cTotal
    exact_mod_cast List.countP_le_length (l := (bpTable t).rows) ps1le
  have hb2 : cSevPS1 t ≤ cPS1 t := by
    have : (bpTable t).rows.countP (fun r => isSev r && ps1le r) ≤
        (bpTable t).rows.countP ps1le :=
      List.countP_mono_left (fun a _ ha => by
        rw [Bool.and_eq_true] at ha
        exact ha.2)
    unfold cSevPS1 cPS1
    exact_mod_cast this
  have hb3 : cModPS1 t ≤ cPS1 t := by
    have : (bpTable t).rows.countP (fun r => isMod r && ps1le r) ≤
        (bpTable t).rows.countP ps1le :=
      List.countP_mono_left (fun a _ ha => by
        rw [Bool.and_eq_true] at ha
        exact ha.2)
    unfold cModPS1 cPS1
    exact_mod_cast this
  have hb4 : cSevPS1A1 t ≤ cSevPS1 t := by
    have : (bpTable t).rows.countP (fun r => isSev r && ps1le r && a1le r) ≤
        (bpTable t).rows.countP (fun r => isSev r && ps1le r) :=
      List.countP_mono_left (fun a _ ha => by
        rw [Bool.and_eq_true] at ha
        exact ha.1)
    unfold cSevPS1A1 cSevPS1
    exact_mod_cast this
  have hb5 : cModPS1A1 t ≤ cModPS1 t := by
    have : (bpTable t).rows.countP (fun r => isMod r && ps1le r && a1le r) ≤
        (bpTable t).rows.countP (fun r => isMod r && ps1le r) :=
      List.countP_mono_left (fun a _ ha => by
        rw [Bool.and_eq_true] at ha
        exact ha.1)
    unfold cModPS1A1 cModPS1
    exact_mod_cast this
  have hb6 : cSevBP t ≤ cSevPS1A1 t := by
    have hmono : (bpTable t).rows.countP (fun r => isSev r && bpYes r) ≤
        (bpTable t).rows.countP (fun r => isSev r && ps1le r && a1le r) := by
      apply bp_countP_mono
      intro r0 _ hp
      rw [Bool.and_eq_true] at hp
      obtain ⟨hsev', hyes'⟩ := hp
      have hsev0 : isSev r0 = true := by rwa [isSev_set_bp] at hsev'
      have hyes0 : bestPracticeRow r0 = "Yes" := by
        simpa [bpYes, Row.get_set] using hyes'
      obtain ⟨hps, ha1⟩ := bpYes_sev_implies r0 hsev0 hyes0
      simp [Bool.and_eq_true, isSev_set_bp, ps1le_set_bp, a1le_set_bp, hsev0, hps, ha1]
    unfold cSevBP cSevPS1A1
    exact_mod_cast hmono
  have hb7 : cModBP t ≤ cModPS1A1 t := by
    have hmono : (bpTable t).rows.countP (fun r => isMod r && bpYes r) ≤
        (bpTable t).rows.countP (fun r => isMod r && ps1le r && a1le r) := by
      apply bp_countP_mono
      intro r0 _ hp
      rw [Bool.and_eq_true] at hp
      obtain ⟨hmod', hyes'⟩ := hp
      have hmod0 : isMod r0 = true := by rwa [isMod_set_bp] at hmod'
      have hyes0 : bestPracticeRow r0 = "Yes" := by
        simpa [bpYes, Row.get_set] using hyes'
      obtain ⟨hps, ha1⟩ := bpYes_mod_implies r0 hmod0 hyes0
      simp [Bool.and_eq_true, isMod_set_bp, ps1le_set_bp, a1le_set_bp, hmod0, hps, ha1]
    unfold cModBP cModPS1A1
    exact_mod_cast hmono
  have hlev2 : cSevPS1 t + cModPS1 t ≤ cPS1 t := by
    have := countP_add_le_countP (bpTable t).rows
      (fun r => isSev r && ps1le r) (fun r => isMod r && ps1le r) ps1le
      (fun a _ ha => by
        rw [Bool.and_eq_true] at ha
        exact ha.2)
      (fun a _ ha => by
        rw [Bool.and_eq_true] at ha
        exact ha.2)
      (fun a _ hc => by
        obtain ⟨h1, h2⟩ := hc
        rw [Bool.and_eq_true] at h1 h2
        have hs := h1.1
        have hm := h2.1
        simp only [isSev, beq_iff_eq] at hs
        simp only [isMod, beq_iff_eq] at hm
        rw [hs] at hm
        simp at hm)
    unfold cSevPS1 cModPS1 cPS1
    exact_mod_cast this
  unfold calculate_best_practice at h
  split at h
  · rw [Option.some_inj] at h
    subst h
    refine ⟨rfl, rfl, rfl, rfl, rfl, by omega, hlev2, by omega⟩
  · exact absurd h (by simp)

/-- A one-record compliant severe-pain table. -/
def funnelW : Table :=
  { cols := bpCols,
    rows := [⟨[("First Pain Score", Cell.str "Sev Pain"), ("Time_to_PS1_Mins", Cell.num 10),
               ("Time_to_A1_Mins", Cell.num 10), ("A1_to_PS2_Mins", Cell.num 10)]⟩] }

/-- Witness for C2 at a concrete compliant table. -/
theorem C2_funnel_structure_witness :
    ((calculate_best_practice funnelW).get (by rfl)).2.labels.length = 13 ∧
    cSevPS1 funnelW + cModPS1 funnelW ≤ cPS1 funnelW :=
  ⟨(C2_funnel_structure funnelW _ (Option.some_get (by rfl)).symm).1,
   (C2_funnel_structure funnelW _ (Option.some_get (by rfl)).symm).2.2.2.2.2.2.1⟩

end PainAudit
